import Mathlib

/-!
# A cycle-counted 6502 subset interpreter (`src/main.cpp`)

Shallow embedding of `Mem` and `CPU` from `src/main.cpp`.

Conventions of the embedding.

* `Word` (unsigned short), `Byte` (unsigned char) and `u32` (unsigned int) values are
  natural numbers; every place where the C++ code truncates (assignment to a narrower
  type, `++`, `--`, `+=`, `-=` on an unsigned variable) carries an explicit `% 2^w`.
  Subtracting `k` from a `w`-bit value `x` is written `(2^w - k + x) % 2^w`, with the
  numeral `2^w - k` as the left summand (`Cycles--` is `(4294967295 + Cycles) % 2^32`).
* `Mem::Data` is a function from indices to cell contents.  An index outside
  `0 .. MAX_MEM - 1` is an out-of-bounds array access; the embedding makes the
  primitive return `none` there, and the whole operation faults.
* The `printf` calls produce trace output only and are not modelled.
* `Execute` is a `while` loop; it is modelled by `ExecuteIter` (one pass through the
  loop body) and `ExecuteFuel` (the loop, with a bound on the number of passes).
-/

namespace Cpu6502

/-! ## Memory -/

/-- The record `struct Mem`: the array `Byte Data[MAX_MEM]`. -/
structure Mem where
  Data : Nat → Nat

namespace Mem

/-- The constant `static constexpr u32 MAX_MEM = 1024 * 64`. -/
abbrev MAX_MEM : Nat := 1024 * 64

/-- The method `void Initialize()`: every cell of the array is set to zero. -/
def Initialize (m : Mem) : Mem :=
  ⟨fun i => if i < MAX_MEM then 0 else m.Data i⟩

/-- Reading through `operator[](u32 Address)`: the cell `Data[Address]`;
`none` when `Address` is outside the array. -/
def read (m : Mem) (Address : Nat) : Option Nat :=
  if Address < MAX_MEM then some (m.Data Address) else none

/-- The array after `Data[Address] = Value`, the value truncated to a byte. -/
def set (m : Mem) (Address : Nat) (Value : Nat) : Mem :=
  ⟨fun i => if i = Address then Value % 256 else m.Data i⟩

/-- Assigning through `Byte& operator[](u32 Address)`: `Data[Address] = Value`;
`none` when `Address` is outside the array. -/
def write (m : Mem) (Address : Nat) (Value : Nat) : Option Mem :=
  if Address < MAX_MEM then some (m.set Address Value) else none

/-- The method `void WriteWord(Word Value, u32 Address)`: low byte first. -/
def WriteWord (m : Mem) (Value : Nat) (Address : Nat) : Option Mem :=
  match m.write Address (Value &&& 0xFF) with
  | none => none
  | some m1 => m1.write (Address + 1) (Value >>> 8)

/-- Every cell of the array holds a byte. -/
def WF (m : Mem) : Prop := ∀ i, i < MAX_MEM → m.Data i < 256

end Mem

/-! ## Processor state -/

/-- The record `struct CPU`: program counter, stack pointer, registers and the seven
one-bit status flags. -/
structure CPU where
  PC : Nat
  SP : Nat
  A : Nat
  X : Nat
  Y : Nat
  C : Nat
  Z : Nat
  I : Nat
  D : Nat
  B : Nat
  V : Nat
  N : Nat

namespace CPU

abbrev INS_LDA_IM : Nat := 0xA9
abbrev INS_LDA_ZP : Nat := 0xA5
abbrev INS_LDA_ZPX : Nat := 0xB5
abbrev INS_JSR : Nat := 0x20
abbrev INS_RTS : Nat := 0x60
abbrev INS_CLC : Nat := 0x18
abbrev INS_SEC : Nat := 0x38
abbrev INS_LDX_IM : Nat := 0xA2
abbrev INS_LDY_IM : Nat := 0xA0
abbrev INS_TAX : Nat := 0xAA
abbrev INS_TAY : Nat := 0xA8
abbrev INS_TXA : Nat := 0x8A
abbrev INS_TYA : Nat := 0x98

/-- The ranges of the C++ types of the fields: `Word` for `PC` and `SP`, `Byte` for
`A`, `X`, `Y`, and one-bit fields for the flags. -/
structure WF (c : CPU) : Prop where
  hPC : c.PC < 65536
  hSP : c.SP < 65536
  hA : c.A < 256
  hX : c.X < 256
  hY : c.Y < 256
  hC : c.C < 2
  hZ : c.Z < 2
  hI : c.I < 2
  hD : c.D < 2
  hB : c.B < 2
  hV : c.V < 2
  hN : c.N < 2

/-- The method `void Reset(Mem& memory)`. -/
def Reset (_c : CPU) (memory : Mem) : CPU × Mem :=
  ({ PC := 0xFFFC, SP := 0x0100, D := 0, I := 0, C := 0, Z := 0, B := 0, V := 0, N := 0,
     A := 0, X := 0, Y := 0 },
   memory.Initialize)

/-- The method `Byte FetchByte(u32& Cycles, Mem& memory)`: returns the byte read, the
processor with `PC++` and the counter with `Cycles--`. -/
def FetchByte (c : CPU) (Cycles : Nat) (memory : Mem) : Option (Nat × CPU × Nat) :=
  match memory.read c.PC with
  | none => none
  | some Data =>
    some (Data, { c with PC := (c.PC + 1) % 65536 }, (4294967295 + Cycles) % 4294967296)

/-- The method `Word FetchWord(u32& Cycles, Mem& memory)`. -/
def FetchWord (c : CPU) (Cycles : Nat) (memory : Mem) : Option (Nat × CPU × Nat) :=
  match memory.read c.PC with
  | none => none
  | some lo =>
    let c1 : CPU := { c with PC := (c.PC + 1) % 65536 }
    match memory.read c1.PC with
    | none => none
    | some hi =>
      let Data := (lo ||| (hi <<< 8)) % 65536
      let c2 : CPU := { c1 with PC := (c1.PC + 1) % 65536 }
      some (Data, c2, (4294967294 + Cycles) % 4294967296)

/-- The method `Byte ReadByte(u32& Cycles, Byte Address, Mem& memory)`; the parameter
`Address` has type `Byte`. -/
def ReadByte (Cycles : Nat) (Address : Nat) (memory : Mem) : Option (Nat × Nat) :=
  match memory.read (Address % 256) with
  | none => none
  | some Data => some (Data, (4294967295 + Cycles) % 4294967296)

/-- The method `void PushWordToStack(u32& Cycles, Mem& memory, Word Value)`.  The index
`SP - 1` is computed in `int` and converted to the `u32` parameter of `operator[]`. -/
def PushWordToStack (c : CPU) (Cycles : Nat) (memory : Mem) (Value : Nat) :
    Option (CPU × Nat × Mem) :=
  match memory.write c.SP (Value >>> 8) with
  | none => none
  | some m1 =>
    match m1.write ((4294967295 + c.SP) % 4294967296) (Value &&& 0xFF) with
    | none => none
    | some m2 =>
      some ({ c with SP := (65534 + c.SP) % 65536 }, (4294967294 + Cycles) % 4294967296, m2)

/-- The method `Word PopWordFromStack(u32& Cycles, Mem& memory)`.  The indices `SP + 1`
and `SP + 2` are computed in `int`. -/
def PopWordFromStack (c : CPU) (Cycles : Nat) (memory : Mem) : Option (Nat × CPU × Nat) :=
  match memory.read (c.SP + 1) with
  | none => none
  | some lo =>
    match memory.read (c.SP + 2) with
    | none => none
    | some hi =>
      some ((lo ||| (hi <<< 8)) % 65536, { c with SP := (c.SP + 2) % 65536 },
            (4294967294 + Cycles) % 4294967296)

/-- The method `void SetZeroAndNegativeFlags(Byte Register)`. -/
def SetZeroAndNegativeFlags (c : CPU) (Register : Nat) : CPU :=
  { c with
    Z := if Register = 0 then 1 else 0
    N := if (Register &&& 0b10000000) > 0 then 1 else 0 }

end CPU

/-! ## The dispatch loop -/

/-- Which `return` statement (or loop exit) ended `Execute`.  `Execute` returns `void`;
this tag is bookkeeping of the embedding and is not visible to a caller. -/
inductive Exit where
  /-- The loop condition `Cycles >= 0` was false. -/
  | loopEnd
  /-- The instruction's `if (Cycles < k) return;` fired. -/
  | budget
  /-- The clause `default:` of the `switch`. -/
  | unhandled
  deriving DecidableEq

/-- Result of one pass through the body of the `while` loop of `Execute`. -/
inductive Outcome where
  /-- The `switch` was left by `break`: control goes back to the loop condition. -/
  | next (c : CPU) (Cycles : Nat) (memory : Mem)
  /-- A `return` statement was reached. -/
  | halt (why : Exit) (c : CPU) (Cycles : Nat) (memory : Mem)

namespace CPU

/-- The body of the `while` loop of `Execute`: the opcode fetch and the `switch`.
`none` is an out-of-bounds array access. -/
def ExecuteIter (c : CPU) (Cycles : Nat) (memory : Mem) : Option Outcome :=
  match c.FetchByte Cycles memory with
  | none => none
  | some (Ins, c, Cycles) =>
    if Ins = INS_LDA_IM then
      if Cycles < 1 then some (.halt .budget c Cycles memory) else
      match c.FetchByte Cycles memory with
      | none => none
      | some (Value, c, Cycles) =>
        let c : CPU := { c with A := Value }
        some (.next (c.SetZeroAndNegativeFlags c.A) Cycles memory)
    else if Ins = INS_LDA_ZP then
      if Cycles < 2 then some (.halt .budget c Cycles memory) else
      match c.FetchByte Cycles memory with
      | none => none
      | some (ZeroPageAddr, c, Cycles) =>
        match ReadByte Cycles ZeroPageAddr memory with
        | none => none
        | some (Data, Cycles) =>
          let c : CPU := { c with A := Data }
          some (.next (c.SetZeroAndNegativeFlags c.A) Cycles memory)
    else if Ins = INS_LDA_ZPX then
      if Cycles < 3 then some (.halt .budget c Cycles memory) else
      match c.FetchByte Cycles memory with
      | none => none
      | some (ZeroPageAddr, c, Cycles) =>
        let ZeroPageAddr := (ZeroPageAddr + c.X) % 256
        let Cycles := (4294967295 + Cycles) % 4294967296
        match ReadByte Cycles ZeroPageAddr memory with
        | none => none
        | some (Data, Cycles) =>
          let c : CPU := { c with A := Data }
          some (.next (c.SetZeroAndNegativeFlags c.A) Cycles memory)
    else if Ins = INS_JSR then
      if Cycles < 3 then some (.halt .budget c Cycles memory) else
      match c.FetchWord Cycles memory with
      | none => none
      | some (SubAddr, c, Cycles) =>
        match c.PushWordToStack Cycles memory ((65535 + c.PC) % 65536) with
        | none => none
        | some (c, Cycles, memory) =>
          let c : CPU := { c with PC := SubAddr }
          some (.next c ((4294967295 + Cycles) % 4294967296) memory)
    else if Ins = INS_RTS then
      if Cycles < 4 then some (.halt .budget c Cycles memory) else
      match c.PopWordFromStack Cycles memory with
      | none => none
      | some (ReturnAddr, c, Cycles) =>
        let c : CPU := { c with PC := (ReturnAddr + 1) % 65536 }
        some (.next c ((4294967294 + Cycles) % 4294967296) memory)
    else if Ins = INS_CLC then
      let c : CPU := { c with C := 0 }
      some (.next c ((4294967295 + Cycles) % 4294967296) memory)
    else if Ins = INS_SEC then
      let c : CPU := { c with C := 1 }
      some (.next c ((4294967295 + Cycles) % 4294967296) memory)
    else if Ins = INS_LDX_IM then
      if Cycles < 1 then some (.halt .budget c Cycles memory) else
      match c.FetchByte Cycles memory with
      | none => none
      | some (Value, c, Cycles) =>
        let c : CPU := { c with X := Value }
        some (.next (c.SetZeroAndNegativeFlags c.X) Cycles memory)
    else if Ins = INS_LDY_IM then
      if Cycles < 1 then some (.halt .budget c Cycles memory) else
      match c.FetchByte Cycles memory with
      | none => none
      | some (Value, c, Cycles) =>
        let c : CPU := { c with Y := Value }
        some (.next (c.SetZeroAndNegativeFlags c.Y) Cycles memory)
    else if Ins = INS_TAX then
      let c : CPU := { c with X := c.A }
      let c := c.SetZeroAndNegativeFlags c.X
      some (.next c ((4294967295 + Cycles) % 4294967296) memory)
    else if Ins = INS_TAY then
      let c : CPU := { c with Y := c.A }
      let c := c.SetZeroAndNegativeFlags c.Y
      some (.next c ((4294967295 + Cycles) % 4294967296) memory)
    else if Ins = INS_TXA then
      let c : CPU := { c with A := c.X }
      let c := c.SetZeroAndNegativeFlags c.A
      some (.next c ((4294967295 + Cycles) % 4294967296) memory)
    else if Ins = INS_TYA then
      let c : CPU := { c with A := c.Y }
      let c := c.SetZeroAndNegativeFlags c.A
      some (.next c ((4294967295 + Cycles) % 4294967296) memory)
    else
      some (.halt .unhandled c Cycles memory)

end CPU

/-- How a bounded run of `Execute` ended. -/
inductive Run where
  /-- The call returned, with the final processor, counter and memory. -/
  | returned (why : Exit) (c : CPU) (Cycles : Nat) (memory : Mem)
  /-- An array index was out of bounds. -/
  | fault
  /-- The loop was still running when the bound on the number of passes was reached. -/
  | running

namespace CPU

/-- The method `void Execute(u32 Cycles, Mem& memory)` with at most `fuel` passes
through the loop `while (Cycles >= 0)`. -/
def ExecuteFuel : Nat → CPU → Nat → Mem → Run
  | 0, _, _, _ => .running
  | fuel + 1, c, Cycles, memory =>
    if Cycles ≥ 0 then
      match c.ExecuteIter Cycles memory with
      | none => .fault
      | some (.halt why c Cycles memory) => .returned why c Cycles memory
      | some (.next c Cycles memory) => ExecuteFuel fuel c Cycles memory
    else .returned .loopEnd c Cycles memory

/-- The call `Execute(Cycles, memory)` on processor `c` returns, leaving processor `c1`,
counter `Cycles1` and memory `memory1`. -/
def Returns (c : CPU) (Cycles : Nat) (memory : Mem)
    (why : Exit) (c1 : CPU) (Cycles1 : Nat) (memory1 : Mem) : Prop :=
  ∃ fuel, c.ExecuteFuel fuel Cycles memory = .returned why c1 Cycles1 memory1

end CPU

/-! ## The programs of `RunTests` and of the end-to-end scenarios -/

/-- Memory of Test 1 after `cpu.Reset(mem)`:
`mem[0xFFFC] = INS_LDA_IM; mem[0xFFFD] = 0x42`. -/
def test1Mem (c0 : CPU) (m0 : Mem) : Mem :=
  (((c0.Reset m0).2.set 0xFFFC CPU.INS_LDA_IM).set 0xFFFD 0x42)

/-- Memory of Test 2 after `cpu.Reset(mem)`, with operand `v` (`0x37` in the test):
`mem[0xFFFC] = INS_LDA_IM; mem[0xFFFD] = v; mem[0xFFFE] = INS_TAX`. -/
def test2Mem (c0 : CPU) (m0 : Mem) (v : Nat) : Mem :=
  ((((c0.Reset m0).2.set 0xFFFC CPU.INS_LDA_IM).set 0xFFFD v).set 0xFFFE CPU.INS_TAX)

/-- A processor state with every field zero (a state before `Reset`). -/
def zeroCPU : CPU := ⟨0, 0, 0, 0, 0, 0, 0, 0, 0, 0, 0, 0⟩

/-- A memory with every cell zero. -/
def zeroMem : Mem := ⟨fun _ => 0⟩

/-- The processor right after `cpu.Reset(mem)` (from an all-zero earlier state). -/
def resetCPU : CPU := (zeroCPU.Reset zeroMem).1

/-- The memory right after `cpu.Reset(mem)` (from an all-zero earlier state). -/
def resetMem : Mem := (zeroCPU.Reset zeroMem).2

/-- Memory of end-to-end scenario C after `Reset`: `0x20` at the reset `PC`, the target
`T` low byte first behind it, and `0x60` at `T`. -/
def scenarioCMem (T : Nat) : Mem :=
  (((resetMem.set 0xFFFC CPU.INS_JSR).set 0xFFFD (T &&& 0xFF)).set 0xFFFE (T >>> 8)).set T
    CPU.INS_RTS

/-- A memory after `Reset` with the single opcode `0x60` (RTS) at the reset `PC`. -/
def rtsMem : Mem := resetMem.set 0xFFFC CPU.INS_RTS

/-- A memory after `Reset` with the single opcode `0x20` (JSR) at the reset `PC`. -/
def jsrMem : Mem := resetMem.set 0xFFFC CPU.INS_JSR

/-- A memory filled entirely with the opcode `0x18` (CLC). -/
def clcMem : Mem := ⟨fun _ => CPU.INS_CLC⟩

/-- A processor after `Reset` whose `PC` was then set to `0x8000`. -/
def cpuAt8000 : CPU := { resetCPU with PC := 0x8000 }

/-- A memory with `JSR 0x0100` at `0x8000` and `0x60` (RTS) at `0x0100`, the cell the
stack pointer designates after `Reset`. -/
def jsrIntoStackMem : Mem :=
  (((resetMem.set 0x8000 CPU.INS_JSR).set 0x8001 0x00).set 0x8002 0x01).set 0x0100 CPU.INS_RTS

/-- A memory with `JSR 0x1234` at `0x8000`. -/
def jsr1234Mem : Mem :=
  ((resetMem.set 0x8000 CPU.INS_JSR).set 0x8001 0x34).set 0x8002 0x12

/-- A memory with `LDA 0xF0,X` at `0x8000` and the byte `0x99` at `0x0000`. -/
def zpxMem : Mem :=
  ((resetMem.set 0x8000 CPU.INS_LDA_ZPX).set 0x8001 0xF0).set 0x0000 0x99

/-- A processor at `0x8000` whose stack pointer is 1. -/
def cpuSP1 : CPU := { cpuAt8000 with SP := 1 }

/-- A processor at `0x8000` with `X = 0x10`. -/
def cpuX10 : CPU := { cpuAt8000 with X := 0x10 }

/-- A processor after `Reset` whose accumulator was then set to `0x80`. -/
def cpuA80 : CPU := { resetCPU with A := 0x80 }

/-- A memory after `Reset` with the single opcode `0xAA` (TAX) at the reset `PC`. -/
def taxMem : Mem := resetMem.set 0xFFFC CPU.INS_TAX

/-- A processor after `Reset` whose stack pointer was then set to `0x01FF`. -/
def cpuSP1FF : CPU := { resetCPU with SP := 0x01FF }

/-- A processor after `Reset` whose stack pointer was then set to `0xFFFE`. -/
def cpuSPFFFE : CPU := { resetCPU with SP := 0xFFFE }

/-- The memory of scenario C with `T = 0x8000` once its JSR has pushed the return address
`0xFFFE`: `0xFF` in cell `0x0100` and `0xFE` in cell `0x00FF`. -/
def scenarioCPushedMem : Mem := ((scenarioCMem 0x8000).set 0x0100 0xFF).set 0x00FF 0xFE

/-! ## Observing a pass -/

namespace Outcome

/-- The processor a pass leaves. -/
def cpu : Outcome → CPU
  | next c _ _ => c
  | halt _ c _ _ => c

/-- The cycle counter a pass leaves. -/
def Cycles : Outcome → Nat
  | next _ cy _ => cy
  | halt _ _ cy _ => cy

/-- The memory a pass leaves. -/
def memory : Outcome → Mem
  | next _ _ m => m
  | halt _ _ _ m => m

end Outcome

namespace CPU

/-- The state after `n` passes through the loop of `Execute`, or after the pass that
reached a `return` if that comes earlier; `none` is an out-of-bounds array access. -/
def IterN : Nat → CPU → Nat → Mem → Option Outcome
  | 0, c, Cycles, memory => some (.next c Cycles memory)
  | n + 1, c, Cycles, memory =>
    match c.ExecuteIter Cycles memory with
    | none => none
    | some (.halt why c1 cy1 m1) => some (.halt why c1 cy1 m1)
    | some (.next c1 cy1 m1) => IterN n c1 cy1 m1

/-- The array indices of the two accesses `memory[SP]` and `memory[SP - 1]` of
`PushWordToStack`, as converted to the `u32` parameter of `operator[]`. -/
def PushWordToStack_indices (c : CPU) : List Nat :=
  [c.SP, (4294967295 + c.SP) % 4294967296]

/-- The array indices of the two accesses `memory[SP + 1]` and `memory[SP + 2]` of
`PopWordFromStack`. -/
def PopWordFromStack_indices (c : CPU) : List Nat :=
  [c.SP + 1, c.SP + 2]

end CPU

/-! ## Cycle costs -/

/-- Modelled from the spec: the column "Cycle cost (incl. opcode fetch)" of the
instruction table of section 4.7, by opcode.  The source has no such table. -/
def tableCost (Ins : Nat) : Option Nat :=
  if Ins = CPU.INS_LDA_IM then some 2
  else if Ins = CPU.INS_LDA_ZP then some 3
  else if Ins = CPU.INS_LDA_ZPX then some 4
  else if Ins = CPU.INS_LDX_IM then some 2
  else if Ins = CPU.INS_LDY_IM then some 2
  else if Ins = CPU.INS_JSR then some 6
  else if Ins = CPU.INS_RTS then some 6
  else if Ins = CPU.INS_CLC then some 1
  else if Ins = CPU.INS_SEC then some 1
  else if Ins = CPU.INS_TAX then some 1
  else if Ins = CPU.INS_TAY then some 1
  else if Ins = CPU.INS_TXA then some 1
  else if Ins = CPU.INS_TYA then some 1
  else none

/-- The constant `k` of the guard `if (Cycles < k) return;` that opens the case of an
opcode in `Execute`; `none` for a case without such a guard. -/
def guardCost (Ins : Nat) : Option Nat :=
  if Ins = CPU.INS_LDA_IM then some 1
  else if Ins = CPU.INS_LDA_ZP then some 2
  else if Ins = CPU.INS_LDA_ZPX then some 3
  else if Ins = CPU.INS_JSR then some 3
  else if Ins = CPU.INS_RTS then some 4
  else if Ins = CPU.INS_LDX_IM then some 1
  else if Ins = CPU.INS_LDY_IM then some 1
  else none

/-! ## Basic facts about the primitives -/

namespace CPU

theorem FetchByte_eq (c : CPU) (Cycles : Nat) (memory : Mem) (hPC : c.PC < 65536) :
    c.FetchByte Cycles memory =
      some (memory.Data c.PC, { c with PC := (c.PC + 1) % 65536 },
            (4294967295 + Cycles) % 4294967296) := by
  simp [FetchByte, Mem.read, hPC]

theorem ExecuteFuel_succ (fuel : Nat) (c : CPU) (Cycles : Nat) (memory : Mem) :
    c.ExecuteFuel (fuel + 1) Cycles memory =
      match c.ExecuteIter Cycles memory with
      | none => .fault
      | some (.halt why c Cycles memory) => .returned why c Cycles memory
      | some (.next c Cycles memory) => ExecuteFuel fuel c Cycles memory := by
  simp [ExecuteFuel]

theorem ExecuteFuel_next (fuel : Nat) {c c1 : CPU} {Cycles cy1 : Nat} {memory m1 : Mem}
    (h : c.ExecuteIter Cycles memory = some (.next c1 cy1 m1)) :
    c.ExecuteFuel (fuel + 1) Cycles memory = c1.ExecuteFuel fuel cy1 m1 := by
  rw [ExecuteFuel_succ, h]

theorem ExecuteFuel_halt (fuel : Nat) {c c1 : CPU} {Cycles cy1 : Nat} {memory m1 : Mem}
    {why : Exit} (h : c.ExecuteIter Cycles memory = some (.halt why c1 cy1 m1)) :
    c.ExecuteFuel (fuel + 1) Cycles memory = .returned why c1 cy1 m1 := by
  rw [ExecuteFuel_succ, h]

/-- More fuel does not change the result of a run that has ended. -/
theorem ExecuteFuel_mono (n : Nat) : ∀ (c : CPU) (Cycles : Nat) (memory : Mem) (k : Nat),
    c.ExecuteFuel n Cycles memory ≠ .running →
    c.ExecuteFuel (n + k) Cycles memory = c.ExecuteFuel n Cycles memory := by
  induction n with
  | zero => intro c Cycles memory k h; exact absurd rfl h
  | succ n ih =>
    intro c Cycles memory k h
    have e : n + 1 + k = (n + k) + 1 := by omega
    rw [e, ExecuteFuel_succ, ExecuteFuel_succ]
    rw [ExecuteFuel_succ] at h
    cases hit : c.ExecuteIter Cycles memory with
    | none => rfl
    | some o =>
      cases o with
      | halt why c1 cy1 m1 => rfl
      | next c1 cy1 m1 =>
        rw [hit] at h
        exact ih c1 cy1 m1 k h

/-- A call of `Execute` has at most one result. -/
theorem Returns_unique {c : CPU} {Cycles : Nat} {memory : Mem}
    {why1 why2 : Exit} {c1 c2 : CPU} {cy1 cy2 : Nat} {m1 m2 : Mem}
    (h1 : c.Returns Cycles memory why1 c1 cy1 m1)
    (h2 : c.Returns Cycles memory why2 c2 cy2 m2) :
    why1 = why2 ∧ c1 = c2 ∧ cy1 = cy2 ∧ m1 = m2 := by
  obtain ⟨n1, e1⟩ := h1
  obtain ⟨n2, e2⟩ := h2
  have a1 := ExecuteFuel_mono n1 c Cycles memory n2 (by rw [e1]; exact fun h => Run.noConfusion h)
  have a2 := ExecuteFuel_mono n2 c Cycles memory n1 (by rw [e2]; exact fun h => Run.noConfusion h)
  rw [Nat.add_comm n2 n1, a1, e1, e2] at a2
  injection a2 with i1 i2 i3 i4
  exact ⟨i1, i2, i3, i4⟩

end CPU

/-! ## One pass through the loop, by opcode -/

namespace CPU

/-- The processor after the opcode fetch. -/
theorem ExecuteIter_LDA_IM (c : CPU) (Cycles : Nat) (memory : Mem)
    (hPC : c.PC < 65536) (hop : memory.Data c.PC = 0xA9)
    (hcy : ¬ (4294967295 + Cycles) % 4294967296 < 1) :
    c.ExecuteIter Cycles memory =
      some (.next { c with PC := (c.PC + 2) % 65536,
                           A := memory.Data ((c.PC + 1) % 65536),
                           Z := if memory.Data ((c.PC + 1) % 65536) = 0 then 1 else 0,
                           N := if (memory.Data ((c.PC + 1) % 65536) &&& 0x80) > 0 then 1 else 0 }
                  ((4294967294 + Cycles) % 4294967296) memory) := by
  have h1 : (c.PC + 1) % 65536 < 65536 := Nat.mod_lt _ (by norm_num)
  have e1 : ((c.PC + 1) % 65536 + 1) % 65536 = (c.PC + 2) % 65536 := by omega
  have e2 : (4294967295 + (4294967295 + Cycles) % 4294967296) % 4294967296
      = (4294967294 + Cycles) % 4294967296 := by omega
  unfold ExecuteIter
  rw [FetchByte_eq c Cycles memory hPC]
  simp only [hop]
  rw [if_pos trivial, if_neg hcy, FetchByte_eq _ _ _ h1]
  simp only [SetZeroAndNegativeFlags, e1, e2]

theorem ExecuteIter_budget (c : CPU) (Cycles : Nat) (memory : Mem) (k : Nat)
    (hPC : c.PC < 65536)
    (hop : (memory.Data c.PC = 0xA9 ∧ k = 1) ∨ (memory.Data c.PC = 0xA5 ∧ k = 2) ∨
           (memory.Data c.PC = 0xB5 ∧ k = 3) ∨ (memory.Data c.PC = 0x20 ∧ k = 3) ∨
           (memory.Data c.PC = 0x60 ∧ k = 4) ∨ (memory.Data c.PC = 0xA2 ∧ k = 1) ∨
           (memory.Data c.PC = 0xA0 ∧ k = 1))
    (hcy : (4294967295 + Cycles) % 4294967296 < k) :
    c.ExecuteIter Cycles memory =
      some (.halt .budget { c with PC := (c.PC + 1) % 65536 }
                  ((4294967295 + Cycles) % 4294967296) memory) := by
  unfold ExecuteIter
  rw [FetchByte_eq c Cycles memory hPC]
  rcases hop with ⟨h, rfl⟩ | ⟨h, rfl⟩ | ⟨h, rfl⟩ | ⟨h, rfl⟩ | ⟨h, rfl⟩ | ⟨h, rfl⟩ | ⟨h, rfl⟩ <;>
    simp only [h, INS_LDA_IM, INS_LDA_ZP, INS_LDA_ZPX, INS_JSR, INS_RTS, INS_CLC, INS_SEC,
      INS_LDX_IM, INS_LDY_IM, Nat.reduceEqDiff, ↓reduceIte, hcy]

theorem ExecuteIter_unhandled (c : CPU) (Cycles : Nat) (memory : Mem)
    (hPC : c.PC < 65536)
    (hop : memory.Data c.PC ∉
      [0xA9, 0xA5, 0xB5, 0x20, 0x60, 0x18, 0x38, 0xA2, 0xA0, 0xAA, 0xA8, 0x8A, 0x98]) :
    c.ExecuteIter Cycles memory =
      some (.halt .unhandled { c with PC := (c.PC + 1) % 65536 }
                  ((4294967295 + Cycles) % 4294967296) memory) := by
  unfold ExecuteIter
  rw [FetchByte_eq c Cycles memory hPC]
  simp only [List.mem_cons, List.mem_singleton, List.not_mem_nil, not_or, or_false] at hop
  obtain ⟨h1, h2, h3, h4, h5, h6, h7, h8, h9, h10, h11, h12, h13⟩ := hop
  simp only [INS_LDA_IM, INS_LDA_ZP, INS_LDA_ZPX, INS_JSR, INS_RTS, INS_CLC, INS_SEC,
      INS_LDX_IM, INS_LDY_IM, INS_TAX, INS_TAY, INS_TXA, INS_TYA,
      h1, h2, h3, h4, h5, h6, h7, h8, h9, h10, h11, h12, h13, ↓reduceIte]

end CPU

/-! ## Bytes and words -/

theorem lor_shiftLeft_eq (lo hi : Nat) (hlo : lo < 256) :
    lo ||| (hi <<< 8) = lo + 256 * hi := by
  have h := Nat.mul_add_lt_is_or (show lo < 2 ^ 8 by omega) hi
  rw [Nat.shiftLeft_eq, Nat.or_comm, Nat.mul_comm hi, ← h]
  omega

theorem and_255 (v : Nat) : v &&& 0xFF = v % 256 :=
  Nat.and_pow_two_sub_one_eq_mod v 8

theorem shiftRight_8 (v : Nat) : v >>> 8 = v / 256 :=
  Nat.shiftRight_eq_div_pow v 8

/-- Reassembling the two bytes stored by `PushWordToStack` gives the word back. -/
theorem word_of_bytes (v : Nat) (hv : v < 65536) :
    (((v &&& 0xFF) % 256) ||| (((v >>> 8) % 256) <<< 8)) % 65536 = v := by
  rw [lor_shiftLeft_eq _ _ (Nat.mod_lt _ (by norm_num)), and_255, shiftRight_8]
  omega

namespace Mem

theorem read_eq (m : Mem) (a : Nat) (h : a < 65536) : m.read a = some (m.Data a) := by
  simp [Mem.read, h]

theorem write_eq (m : Mem) (a v : Nat) (h : a < 65536) : m.write a v = some (m.set a v) := by
  simp [Mem.write, h]

end Mem

namespace CPU

theorem FetchWord_eq (c : CPU) (Cycles : Nat) (memory : Mem) (hPC : c.PC < 65536) :
    c.FetchWord Cycles memory =
      some ((memory.Data c.PC ||| (memory.Data ((c.PC + 1) % 65536) <<< 8)) % 65536,
            { c with PC := (c.PC + 2) % 65536 }, (4294967294 + Cycles) % 4294967296) := by
  have h1 : (c.PC + 1) % 65536 < 65536 := Nat.mod_lt _ (by norm_num)
  have e1 : ((c.PC + 1) % 65536 + 1) % 65536 = (c.PC + 2) % 65536 := by omega
  simp only [FetchWord, Mem.read_eq _ _ hPC, Mem.read_eq _ _ h1, e1]

theorem PushWordToStack_eq (c : CPU) (Cycles : Nat) (memory : Mem) (Value : Nat)
    (hSP1 : 1 ≤ c.SP) (hSP2 : c.SP < 65536) :
    c.PushWordToStack Cycles memory Value =
      some ({ c with SP := (65534 + c.SP) % 65536 }, (4294967294 + Cycles) % 4294967296,
            (memory.set c.SP (Value >>> 8)).set (c.SP - 1) (Value &&& 0xFF)) := by
  have e4 : (4294967295 + c.SP) % 4294967296 = c.SP - 1 := by omega
  have h4 : c.SP - 1 < 65536 := by omega
  simp only [PushWordToStack, Mem.write_eq _ _ _ hSP2, e4, Mem.write_eq _ _ _ h4]

theorem PopWordFromStack_eq (c : CPU) (Cycles : Nat) (memory : Mem)
    (hSP : c.SP + 2 < 65536) :
    c.PopWordFromStack Cycles memory =
      some ((memory.Data (c.SP + 1) ||| (memory.Data (c.SP + 2) <<< 8)) % 65536,
            { c with SP := (c.SP + 2) % 65536 }, (4294967294 + Cycles) % 4294967296) := by
  have h1 : c.SP + 1 < 65536 := by omega
  simp only [PopWordFromStack, Mem.read_eq _ _ h1, Mem.read_eq _ _ hSP]

theorem ReadByte_eq (Cycles Address : Nat) (memory : Mem) :
    ReadByte Cycles Address memory =
      some (memory.Data (Address % 256), (4294967295 + Cycles) % 4294967296) := by
  have h : Address % 256 < 65536 := by omega
  simp only [ReadByte, Mem.read_eq _ _ h]

theorem ExecuteIter_JSR (c : CPU) (Cycles : Nat) (memory : Mem)
    (hPC : c.PC < 65536) (hop : memory.Data c.PC = 0x20)
    (hcy : ¬ (4294967295 + Cycles) % 4294967296 < 3)
    (hSP1 : 1 ≤ c.SP) (hSP2 : c.SP < 65536) :
    c.ExecuteIter Cycles memory =
      some (.next
        { c with
          PC := (memory.Data ((c.PC + 1) % 65536) |||
                  (memory.Data ((c.PC + 2) % 65536) <<< 8)) % 65536,
          SP := (65534 + c.SP) % 65536 }
        ((4294967290 + Cycles) % 4294967296)
        ((memory.set c.SP (((c.PC + 2) % 65536) >>> 8)).set (c.SP - 1)
          (((c.PC + 2) % 65536) &&& 0xFF))) := by
  have h1 : (c.PC + 1) % 65536 < 65536 := Nat.mod_lt _ (by norm_num)
  have e1 : ((c.PC + 1) % 65536 + 1) % 65536 = (c.PC + 2) % 65536 := by omega
  have e2 : (65535 + ((c.PC + 1) % 65536 + 2) % 65536) % 65536 = (c.PC + 2) % 65536 := by
    omega
  have e3 : (4294967295 + (4294967294 + (4294967294 + (4294967295 + Cycles) % 4294967296)
      % 4294967296) % 4294967296) % 4294967296 = (4294967290 + Cycles) % 4294967296 := by
    omega
  have hf := FetchWord_eq { c with PC := (c.PC + 1) % 65536 }
    ((4294967295 + Cycles) % 4294967296) memory h1
  have hp := PushWordToStack_eq
    { c with PC := ((c.PC + 1) % 65536 + 2) % 65536 }
    ((4294967294 + (4294967295 + Cycles) % 4294967296) % 4294967296) memory
    ((c.PC + 2) % 65536) hSP1 hSP2
  dsimp only at hf hp
  unfold ExecuteIter
  rw [FetchByte_eq c Cycles memory hPC]
  simp only [hop, INS_LDA_IM, INS_LDA_ZP, INS_LDA_ZPX, INS_JSR, Nat.reduceEqDiff, ↓reduceIte,
    hcy, hf, hp, e1, e2, e3]

theorem ExecuteIter_RTS (c : CPU) (Cycles : Nat) (memory : Mem)
    (hPC : c.PC < 65536) (hop : memory.Data c.PC = 0x60)
    (hcy : ¬ (4294967295 + Cycles) % 4294967296 < 4)
    (hSP : c.SP + 2 < 65536) :
    c.ExecuteIter Cycles memory =
      some (.next
        { c with
          PC := ((memory.Data (c.SP + 1) ||| (memory.Data (c.SP + 2) <<< 8)) % 65536 + 1)
                  % 65536,
          SP := (c.SP + 2) % 65536 }
        ((4294967291 + Cycles) % 4294967296) memory) := by
  have e3 : (4294967294 + (4294967294 + (4294967295 + Cycles) % 4294967296) % 4294967296)
      % 4294967296 = (4294967291 + Cycles) % 4294967296 := by omega
  have hp := PopWordFromStack_eq { c with PC := (c.PC + 1) % 65536 }
    ((4294967295 + Cycles) % 4294967296) memory hSP
  dsimp only at hp
  unfold ExecuteIter
  rw [FetchByte_eq c Cycles memory hPC]
  simp only [hop, INS_LDA_IM, INS_LDA_ZP, INS_LDA_ZPX, INS_JSR, INS_RTS, Nat.reduceEqDiff,
    ↓reduceIte, hcy, hp, e3]

theorem ExecuteIter_CLC (c : CPU) (Cycles : Nat) (memory : Mem)
    (hPC : c.PC < 65536) (hop : memory.Data c.PC = 0x18) :
    c.ExecuteIter Cycles memory =
      some (.next { c with PC := (c.PC + 1) % 65536, C := 0 }
        ((4294967294 + Cycles) % 4294967296) memory) := by
  have e3 : (4294967295 + (4294967295 + Cycles) % 4294967296) % 4294967296
      = (4294967294 + Cycles) % 4294967296 := by omega
  unfold ExecuteIter
  rw [FetchByte_eq c Cycles memory hPC]
  simp only [hop, INS_LDA_IM, INS_LDA_ZP, INS_LDA_ZPX, INS_JSR, INS_RTS, INS_CLC,
    Nat.reduceEqDiff, ↓reduceIte, e3]

theorem ExecuteIter_LDA_ZPX (c : CPU) (Cycles : Nat) (memory : Mem)
    (hPC : c.PC < 65536) (hop : memory.Data c.PC = 0xB5)
    (hcy : ¬ (4294967295 + Cycles) % 4294967296 < 3) :
    c.ExecuteIter Cycles memory =
      some (.next
        { c with
          PC := (c.PC + 2) % 65536,
          A := memory.Data ((memory.Data ((c.PC + 1) % 65536) + c.X) % 256),
          Z := if memory.Data ((memory.Data ((c.PC + 1) % 65536) + c.X) % 256) = 0
                then 1 else 0,
          N := if (memory.Data ((memory.Data ((c.PC + 1) % 65536) + c.X) % 256) &&& 0x80) > 0
                then 1 else 0 }
        ((4294967292 + Cycles) % 4294967296) memory) := by
  have h1 : (c.PC + 1) % 65536 < 65536 := Nat.mod_lt _ (by norm_num)
  have e1 : ((c.PC + 1) % 65536 + 1) % 65536 = (c.PC + 2) % 65536 := by omega
  have e3 : (4294967295 + (4294967295 + (4294967295 + (4294967295 + Cycles) % 4294967296)
      % 4294967296) % 4294967296) % 4294967296 = (4294967292 + Cycles) % 4294967296 := by
    omega
  have e4 : ∀ a : Nat, a % 256 % 256 = a % 256 := by intro a; omega
  have hf := FetchByte_eq { c with PC := (c.PC + 1) % 65536 }
    ((4294967295 + Cycles) % 4294967296) memory h1
  dsimp only at hf
  unfold ExecuteIter
  rw [FetchByte_eq c Cycles memory hPC]
  simp only [hop, INS_LDA_IM, INS_LDA_ZP, INS_LDA_ZPX, Nat.reduceEqDiff, ↓reduceIte, hcy, hf,
    ReadByte_eq, SetZeroAndNegativeFlags, e1, e3, e4]

theorem ExecuteIter_LDA_IM_val (c : CPU) (Cycles : Nat) (memory : Mem) (v : Nat)
    (hPC : c.PC < 65536) (hop : memory.Data c.PC = 0xA9)
    (harg : memory.Data ((c.PC + 1) % 65536) = v)
    (hcy : ¬ (4294967295 + Cycles) % 4294967296 < 1) :
    c.ExecuteIter Cycles memory =
      some (.next { c with PC := (c.PC + 2) % 65536, A := v,
                           Z := if v = 0 then 1 else 0,
                           N := if (v &&& 0x80) > 0 then 1 else 0 }
                  ((4294967294 + Cycles) % 4294967296) memory) := by
  rw [ExecuteIter_LDA_IM c Cycles memory hPC hop hcy, harg]

theorem ExecuteIter_TAX (c : CPU) (Cycles : Nat) (memory : Mem)
    (hPC : c.PC < 65536) (hop : memory.Data c.PC = 0xAA) :
    c.ExecuteIter Cycles memory =
      some (.next { c with PC := (c.PC + 1) % 65536, X := c.A,
                           Z := if c.A = 0 then 1 else 0,
                           N := if (c.A &&& 0x80) > 0 then 1 else 0 }
        ((4294967294 + Cycles) % 4294967296) memory) := by
  have e3 : (4294967295 + (4294967295 + Cycles) % 4294967296) % 4294967296
      = (4294967294 + Cycles) % 4294967296 := by omega
  unfold ExecuteIter
  rw [FetchByte_eq c Cycles memory hPC]
  simp only [hop, INS_LDA_IM, INS_LDA_ZP, INS_LDA_ZPX, INS_JSR, INS_RTS, INS_CLC, INS_SEC,
    INS_LDX_IM, INS_LDY_IM, INS_TAX, Nat.reduceEqDiff, ↓reduceIte, SetZeroAndNegativeFlags, e3]

/-! Variants of the step lemmas for runs on concrete programs: the program counter `P`
(and the stack pointer `S`) are given as separate numerals. -/

theorem step_LDA_IM (c : CPU) (Cycles : Nat) (memory : Mem) (P v : Nat)
    (hP : c.PC = P) (hPC : P < 65536) (hop : memory.Data P = 0xA9)
    (harg : memory.Data ((P + 1) % 65536) = v)
    (hcy : ¬ (4294967295 + Cycles) % 4294967296 < 1) :
    c.ExecuteIter Cycles memory =
      some (.next { c with PC := (P + 2) % 65536, A := v,
                           Z := if v = 0 then 1 else 0,
                           N := if (v &&& 0x80) > 0 then 1 else 0 }
                  ((4294967294 + Cycles) % 4294967296) memory) := by
  subst hP
  exact ExecuteIter_LDA_IM_val c Cycles memory v hPC hop harg hcy

theorem step_TAX (c : CPU) (Cycles : Nat) (memory : Mem) (P : Nat)
    (hP : c.PC = P) (hPC : P < 65536) (hop : memory.Data P = 0xAA) :
    c.ExecuteIter Cycles memory =
      some (.next { c with PC := (P + 1) % 65536, X := c.A,
                           Z := if c.A = 0 then 1 else 0,
                           N := if (c.A &&& 0x80) > 0 then 1 else 0 }
        ((4294967294 + Cycles) % 4294967296) memory) := by
  subst hP
  exact ExecuteIter_TAX c Cycles memory hPC hop

theorem step_unhandled (c : CPU) (Cycles : Nat) (memory : Mem) (P op : Nat)
    (hP : c.PC = P) (hPC : P < 65536) (hop : memory.Data P = op)
    (hno : op ∉
      [0xA9, 0xA5, 0xB5, 0x20, 0x60, 0x18, 0x38, 0xA2, 0xA0, 0xAA, 0xA8, 0x8A, 0x98]) :
    c.ExecuteIter Cycles memory =
      some (.halt .unhandled { c with PC := (P + 1) % 65536 }
                  ((4294967295 + Cycles) % 4294967296) memory) := by
  subst hP
  subst hop
  exact ExecuteIter_unhandled c Cycles memory hPC hno

theorem step_budget (c : CPU) (Cycles : Nat) (memory : Mem) (P k : Nat)
    (hP : c.PC = P) (hPC : P < 65536)
    (hop : (memory.Data P = 0xA9 ∧ k = 1) ∨ (memory.Data P = 0xA5 ∧ k = 2) ∨
           (memory.Data P = 0xB5 ∧ k = 3) ∨ (memory.Data P = 0x20 ∧ k = 3) ∨
           (memory.Data P = 0x60 ∧ k = 4) ∨ (memory.Data P = 0xA2 ∧ k = 1) ∨
           (memory.Data P = 0xA0 ∧ k = 1))
    (hcy : (4294967295 + Cycles) % 4294967296 < k) :
    c.ExecuteIter Cycles memory =
      some (.halt .budget { c with PC := (P + 1) % 65536 }
                  ((4294967295 + Cycles) % 4294967296) memory) := by
  subst hP
  exact ExecuteIter_budget c Cycles memory k hPC hop hcy

theorem step_JSR (c : CPU) (Cycles : Nat) (memory : Mem) (P S lo hi : Nat)
    (hP : c.PC = P) (hS : c.SP = S) (hPC : P < 65536) (hop : memory.Data P = 0x20)
    (hlo : memory.Data ((P + 1) % 65536) = lo) (hhi : memory.Data ((P + 2) % 65536) = hi)
    (hlo8 : lo < 256)
    (hcy : ¬ (4294967295 + Cycles) % 4294967296 < 3)
    (hSP1 : 1 ≤ S) (hSP2 : S < 65536) :
    c.ExecuteIter Cycles memory =
      some (.next
        { c with PC := (lo + 256 * hi) % 65536, SP := (65534 + S) % 65536 }
        ((4294967290 + Cycles) % 4294967296)
        ((memory.set S (((P + 2) % 65536) / 256)).set (S - 1) (((P + 2) % 65536) % 256))) := by
  subst hP
  subst hS
  rw [ExecuteIter_JSR c Cycles memory hPC hop hcy hSP1 hSP2, hlo, hhi,
    lor_shiftLeft_eq lo hi hlo8, and_255, shiftRight_8]

theorem step_RTS (c : CPU) (Cycles : Nat) (memory : Mem) (P S lo hi : Nat)
    (hP : c.PC = P) (hS : c.SP = S) (hPC : P < 65536) (hop : memory.Data P = 0x60)
    (hlo : memory.Data (S + 1) = lo) (hhi : memory.Data (S + 2) = hi)
    (hlo8 : lo < 256)
    (hcy : ¬ (4294967295 + Cycles) % 4294967296 < 4)
    (hSP : S + 2 < 65536) :
    c.ExecuteIter Cycles memory =
      some (.next
        { c with PC := ((lo + 256 * hi) % 65536 + 1) % 65536, SP := (S + 2) % 65536 }
        ((4294967291 + Cycles) % 4294967296) memory) := by
  subst hP
  subst hS
  rw [ExecuteIter_RTS c Cycles memory hPC hop hcy hSP, hlo, hhi, lor_shiftLeft_eq lo hi hlo8]

end CPU

/-! ## Claims -/

theorem flag_gt_iff_ne (x : Nat) :
    (if x > 0 then (1 : Nat) else 0) = (if x ≠ 0 then 1 else 0) := by
  by_cases h : x = 0
  · simp [h]
  · have h1 : x > 0 := Nat.pos_of_ne_zero h
    simp [h, h1]

/-- C1: with `0xA9` at `PC` and `v` behind it, one pass through the loop of `Execute`
entered with at least 2 cycles sets `A = v`, `Z = 1` iff `v = 0`, `N = 1` iff
`(v & 0x80) != 0`, and takes exactly 2 off the cycle counter. -/
theorem C1_lda_immediate (c : CPU) (memory : Mem) (Cycles v : Nat)
    (hPC : c.PC < 65536) (hlo : 2 ≤ Cycles) (hhi : Cycles < 4294967296)
    (hop : memory.Data c.PC = 0xA9) (harg : memory.Data ((c.PC + 1) % 65536) = v) :
    ∃ c1, c.ExecuteIter Cycles memory = some (.next c1 (Cycles - 2) memory) ∧
      c1.A = v ∧ c1.Z = (if v = 0 then 1 else 0) ∧
      c1.N = (if v &&& 0x80 ≠ 0 then 1 else 0) := by
  have hcy : ¬ (4294967295 + Cycles) % 4294967296 < 1 := by omega
  have e : (4294967294 + Cycles) % 4294967296 = Cycles - 2 := by omega
  rw [CPU.ExecuteIter_LDA_IM c Cycles memory hPC hop hcy, e]
  refine ⟨_, rfl, ?_, ?_, ?_⟩
  · exact harg
  · simp only [harg]
  · simp only [harg]
    exact flag_gt_iff_ne _

/-- C1 at the state of Test 1: after `Reset`, with `0xA9 0x42` at `0xFFFC`, the pass
entered with 2 cycles leaves `A = 0x42`, `Z = 0`, `N = 0` and the counter at 0. -/
theorem C1_lda_immediate_witness :
    ∃ c1, (zeroCPU.Reset zeroMem).1.ExecuteIter 2 (test1Mem zeroCPU zeroMem)
        = some (.next c1 (2 - 2) (test1Mem zeroCPU zeroMem)) ∧
      c1.A = 0x42 ∧ c1.Z = (if 0x42 = 0 then 1 else 0) ∧
      c1.N = (if 0x42 &&& 0x80 ≠ 0 then 1 else 0) :=
  C1_lda_immediate (zeroCPU.Reset zeroMem).1 (test1Mem zeroCPU zeroMem) 2 0x42
    (by decide) (by decide) (by decide) rfl rfl

/-- Test 1 as a whole call: after `Reset` with `0xA9 0x42` at `0xFFFC`, `Execute(2)`
returns with `A = 0x42`, `Z = 0`, `N = 0`; it returns from the `default` clause, after
one more opcode fetch at `0xFFFE`. -/
theorem test1_Execute (c0 : CPU) (m0 : Mem) :
    (c0.Reset m0).1.Returns 2 (test1Mem c0 m0) .unhandled
      { PC := 0xFFFF, SP := 0x0100, A := 0x42, X := 0, Y := 0, C := 0, Z := 0, I := 0,
        D := 0, B := 0, V := 0, N := 0 }
      4294967295 (test1Mem c0 m0) := by
  have h1 : resetCPU.ExecuteIter 2 (test1Mem c0 m0) =
      some (.next ⟨0xFFFE, 0x0100, 0x42, 0, 0, 0, 0, 0, 0, 0, 0, 0⟩ 0 (test1Mem c0 m0)) :=
    CPU.ExecuteIter_LDA_IM_val resetCPU 2 (test1Mem c0 m0) 0x42 (by decide) rfl rfl
      (by decide)
  have h2 : CPU.ExecuteIter ⟨0xFFFE, 0x0100, 0x42, 0, 0, 0, 0, 0, 0, 0, 0, 0⟩ 0
      (test1Mem c0 m0) =
      some (.halt .unhandled ⟨0xFFFF, 0x0100, 0x42, 0, 0, 0, 0, 0, 0, 0, 0, 0⟩ 4294967295
        (test1Mem c0 m0)) :=
    CPU.ExecuteIter_unhandled ⟨0xFFFE, 0x0100, 0x42, 0, 0, 0, 0, 0, 0, 0, 0, 0⟩ 0
      (test1Mem c0 m0) (by decide)
      (by rw [show (test1Mem c0 m0).Data 0xFFFE = 0 from rfl]; decide)
  show resetCPU.Returns 2 (test1Mem c0 m0) _ _ _ _
  exact ⟨2, by rw [CPU.ExecuteFuel_next 1 h1, CPU.ExecuteFuel_halt 0 h2]⟩

/-- C2: after `Reset`, with `0xA9 v 0xAA` from `0xFFFC` on and every other cell zero,
the call `Execute(3)` returns with `A = v`, `X = v`, `Z = 1` iff `v = 0` and `N = 1` iff
`(v & 0x80) != 0`. -/
theorem C2_lda_tax (c0 : CPU) (m0 : Mem) (v : Nat) (hv : v < 256) :
    ∃ why c1 Cycles1,
      (c0.Reset m0).1.Returns 3 (test2Mem c0 m0 v) why c1 Cycles1 (test2Mem c0 m0 v) ∧
      c1.A = v ∧ c1.X = v ∧ c1.Z = (if v = 0 then 1 else 0) ∧
      c1.N = (if v &&& 0x80 ≠ 0 then 1 else 0) := by
  have harg : (test2Mem c0 m0 v).Data ((0xFFFC + 1) % 65536) = v :=
    (show (test2Mem c0 m0 v).Data ((0xFFFC + 1) % 65536) = v % 256 from rfl).trans
      (Nat.mod_eq_of_lt hv)
  have h1 : resetCPU.ExecuteIter 3 (test2Mem c0 m0 v) =
      some (.next ⟨0xFFFE, 0x0100, v, 0, 0, 0, if v = 0 then 1 else 0, 0, 0, 0, 0,
          if (v &&& 0x80) > 0 then 1 else 0⟩ 1 (test2Mem c0 m0 v)) :=
    CPU.step_LDA_IM resetCPU 3 (test2Mem c0 m0 v) 0xFFFC v rfl (by decide) rfl harg
      (by decide)
  have h2 : CPU.ExecuteIter ⟨0xFFFE, 0x0100, v, 0, 0, 0, if v = 0 then 1 else 0, 0, 0, 0, 0,
        if (v &&& 0x80) > 0 then 1 else 0⟩ 1 (test2Mem c0 m0 v) =
      some (.next ⟨0xFFFF, 0x0100, v, v, 0, 0, if v = 0 then 1 else 0, 0, 0, 0, 0,
          if (v &&& 0x80) > 0 then 1 else 0⟩ 4294967295 (test2Mem c0 m0 v)) :=
    CPU.step_TAX _ 1 (test2Mem c0 m0 v) 0xFFFE rfl (by decide) rfl
  have h3 : CPU.ExecuteIter ⟨0xFFFF, 0x0100, v, v, 0, 0, if v = 0 then 1 else 0, 0, 0, 0, 0,
        if (v &&& 0x80) > 0 then 1 else 0⟩ 4294967295 (test2Mem c0 m0 v) =
      some (.halt .unhandled ⟨0, 0x0100, v, v, 0, 0, if v = 0 then 1 else 0, 0, 0, 0, 0,
          if (v &&& 0x80) > 0 then 1 else 0⟩ 4294967294 (test2Mem c0 m0 v)) :=
    CPU.step_unhandled _ 4294967295 (test2Mem c0 m0 v) 0xFFFF 0 rfl (by decide) rfl
      (by decide)
  refine ⟨.unhandled, ⟨0, 0x0100, v, v, 0, 0, if v = 0 then 1 else 0, 0, 0, 0, 0,
    if (v &&& 0x80) > 0 then 1 else 0⟩, 4294967294, ?_, rfl, rfl, rfl, flag_gt_iff_ne _⟩
  show resetCPU.Returns 3 (test2Mem c0 m0 v) _ _ _ _
  exact ⟨3, by rw [CPU.ExecuteFuel_next 2 h1, CPU.ExecuteFuel_next 1 h2,
    CPU.ExecuteFuel_halt 0 h3]⟩

/-- C2 at the operand of Test 2, `v = 0x37`. -/
theorem C2_lda_tax_witness :
    ∃ why c1 Cycles1,
      (zeroCPU.Reset zeroMem).1.Returns 3 (test2Mem zeroCPU zeroMem 0x37) why c1 Cycles1
        (test2Mem zeroCPU zeroMem 0x37) ∧
      c1.A = 0x37 ∧ c1.X = 0x37 ∧ c1.Z = (if 0x37 = 0 then 1 else 0) ∧
      c1.N = (if 0x37 &&& 0x80 ≠ 0 then 1 else 0) :=
  C2_lda_tax zeroCPU zeroMem 0x37 (by decide)

/-- C3 (the code does otherwise): `Execute(0)` on the state after `Reset` fetches an
opcode, leaving `PC = 0xFFFD` and the counter wrapped to `2^32 - 1`; and `Execute(2)` on
Test 1, whose first instruction brings the counter to exactly 0, fetches a further opcode
at `0xFFFE` and leaves `PC = 0xFFFF`. -/
theorem C3_zero_budget_still_fetches :
    resetCPU.ExecuteFuel 1 0 resetMem =
      .returned .unhandled { resetCPU with PC := 0xFFFD } 4294967295 resetMem ∧
    resetCPU.ExecuteIter 2 (test1Mem zeroCPU zeroMem) =
      some (.next { resetCPU with PC := 0xFFFE, A := 0x42 } 0 (test1Mem zeroCPU zeroMem)) ∧
    resetCPU.ExecuteFuel 2 2 (test1Mem zeroCPU zeroMem) =
      .returned .unhandled { resetCPU with PC := 0xFFFF, A := 0x42 } 4294967295
        (test1Mem zeroCPU zeroMem) :=
  ⟨rfl, rfl, rfl⟩

/-- C4 as stated fails: RTS has cost 6 in the instruction table, and `Execute(5)` started
at an RTS opcode (state after `Reset`, `0x60` at `0xFFFC`) passes the guard `Cycles < 4`,
pops a return address, leaves `SP = 0x0102` and `PC = 2`; it does not return with
everything but `PC` unchanged. -/
theorem C4_counterexample :
    tableCost (rtsMem.Data resetCPU.PC) = some 6 ∧
    resetCPU.ExecuteFuel 2 5 rtsMem =
      .returned .unhandled { resetCPU with PC := 2, SP := 0x0102 } 4294967295 rtsMem ∧
    ¬ ∃ why Cycles1,
      resetCPU.Returns 5 rtsMem why { resetCPU with PC := 0xFFFD } Cycles1 rtsMem := by
  refine ⟨rfl, rfl, ?_⟩
  rintro ⟨why, Cycles1, h⟩
  have hrun : resetCPU.Returns 5 rtsMem .unhandled { resetCPU with PC := 2, SP := 0x0102 }
      4294967295 rtsMem := ⟨2, rfl⟩
  have hc := (CPU.Returns_unique h hrun).2.1
  have hSP := congrArg CPU.SP hc
  exact absurd hSP (by decide)

/-- C4, amended: when the case of the fetched opcode opens with `if (Cycles < k) return;`
and the budget `b` satisfies `0 < b <= k`, `Execute(b)` returns from that guard with
`A`, `X`, `Y`, `SP`, the flags and memory unchanged and `PC` advanced by 1 (mod 2^16). -/
theorem C4_budget_guard_halts (c : CPU) (memory : Mem) (k b : Nat)
    (hPC : c.PC < 65536) (hk : guardCost (memory.Data c.PC) = some k)
    (hb : 0 < b) (hbk : b ≤ k) :
    c.Returns b memory .budget { c with PC := (c.PC + 1) % 65536 } (b - 1) memory := by
  have hop : (memory.Data c.PC = 0xA9 ∧ k = 1) ∨ (memory.Data c.PC = 0xA5 ∧ k = 2) ∨
      (memory.Data c.PC = 0xB5 ∧ k = 3) ∨ (memory.Data c.PC = 0x20 ∧ k = 3) ∨
      (memory.Data c.PC = 0x60 ∧ k = 4) ∨ (memory.Data c.PC = 0xA2 ∧ k = 1) ∨
      (memory.Data c.PC = 0xA0 ∧ k = 1) := by
    unfold guardCost at hk
    split_ifs at hk with h1 h2 h3 h4 h5 h6 h7 <;>
      simp only [Option.some.injEq] at hk <;> subst hk <;> simp_all
  have hk4 : k ≤ 4 := by
    rcases hop with ⟨_, h⟩ | ⟨_, h⟩ | ⟨_, h⟩ | ⟨_, h⟩ | ⟨_, h⟩ | ⟨_, h⟩ | ⟨_, h⟩ <;> omega
  have e : (4294967295 + b) % 4294967296 = b - 1 := by omega
  have hcy : (4294967295 + b) % 4294967296 < k := by omega
  refine ⟨1, ?_⟩
  rw [CPU.ExecuteFuel_succ, CPU.ExecuteIter_budget c b memory k hPC hop hcy, e]

/-- C4, amended, at a JSR opcode with budget 3. -/
theorem C4_budget_guard_halts_witness :
    resetCPU.Returns 3 jsrMem .budget { resetCPU with PC := (resetCPU.PC + 1) % 65536 }
      (3 - 1) jsrMem :=
  C4_budget_guard_halts resetCPU jsrMem 3 3 (by decide) rfl (by decide) (by decide)

/-- C5: when the byte at `PC` is none of the 13 opcodes of the `switch`, `Execute`
returns from the `default` clause after that one opcode fetch, for every budget: the
processor is unchanged except `PC`, which is the old `PC` plus 1 (mod 2^16), and memory
is unchanged. -/
theorem C5_unrecognized_opcode_halts (c : CPU) (memory : Mem) (Cycles : Nat)
    (hPC : c.PC < 65536)
    (hop : memory.Data c.PC ∉
      [0xA9, 0xA5, 0xB5, 0x20, 0x60, 0x18, 0x38, 0xA2, 0xA0, 0xAA, 0xA8, 0x8A, 0x98]) :
    c.ExecuteFuel 1 Cycles memory =
      .returned .unhandled { c with PC := (c.PC + 1) % 65536 }
        ((4294967295 + Cycles) % 4294967296) memory := by
  rw [CPU.ExecuteFuel_succ, CPU.ExecuteIter_unhandled c Cycles memory hPC hop]

/-- C5 on the state after `Reset` (opcode `0x00` at `0xFFFC`) with budget 7. -/
theorem C5_unrecognized_opcode_halts_witness :
    resetCPU.ExecuteFuel 1 7 resetMem =
      .returned .unhandled { resetCPU with PC := (resetCPU.PC + 1) % 65536 }
        ((4294967295 + 7) % 4294967296) resetMem :=
  C5_unrecognized_opcode_halts resetCPU resetMem 7 (by decide) (by decide)

/-- C6 as stated fails when the target is a stack cell: with `JSR 0x0100` at `0x8000`,
`SP = 0x0100` and `0x60` at `0x0100`, the push of JSR overwrites the cell `0x0100` with
`0x80` (the high byte of `0x8002`), the next pass fetches `0x80` instead of RTS and
`Execute` returns from the `default` clause with `PC = 0x0101`, not `0x8003`, and
`SP = 0x00FE`. -/
theorem C6_counterexample :
    jsrIntoStackMem.Data cpuAt8000.PC = 0x20 ∧
    jsrIntoStackMem.Data (cpuAt8000.PC + 1) = 0x00 ∧
    jsrIntoStackMem.Data (cpuAt8000.PC + 2) = 0x01 ∧
    jsrIntoStackMem.Data (0x00 + 256 * 0x01) = 0x60 ∧
    cpuAt8000.SP = 0x0100 ∧
    cpuAt8000.ExecuteIter 12 jsrIntoStackMem =
      some (.next { cpuAt8000 with PC := 0x0100, SP := 0x00FE } 6
        ((jsrIntoStackMem.set 0x0100 (0x8002 / 256)).set 0x00FF (0x8002 % 256))) ∧
    CPU.ExecuteIter { cpuAt8000 with PC := 0x0100, SP := 0x00FE } 6
        ((jsrIntoStackMem.set 0x0100 (0x8002 / 256)).set 0x00FF (0x8002 % 256)) =
      some (.halt .unhandled { cpuAt8000 with PC := 0x0101, SP := 0x00FE } 5
        ((jsrIntoStackMem.set 0x0100 (0x8002 / 256)).set 0x00FF (0x8002 % 256))) :=
  ⟨rfl, rfl, rfl, rfl, rfl,
   CPU.step_JSR cpuAt8000 12 jsrIntoStackMem 0x8000 0x0100 0x00 0x01 rfl rfl (by decide) rfl
     rfl rfl (by decide) (by decide) (by decide) (by decide),
   CPU.step_unhandled _ 6 _ 0x0100 0x80 rfl (by decide) rfl (by decide)⟩

/-- C6, amended: with `0x20` at `PC`, the bytes `lo`, `hi` of the target `T = lo + 256 hi`
behind it, `0x60` at `T`, a stack pointer with `2 <= SP <= 0xFFFF`, a target that is
neither of the two cells `SP`, `SP - 1` written by the push, and a budget of at least 11,
the pass for JSR followed by the pass for RTS leaves `PC = (P + 3) mod 2^16` and `SP`
at its initial value. -/
theorem C6_jsr_rts_roundtrip (c : CPU) (memory : Mem) (Cycles lo hi : Nat)
    (hPC : c.PC < 65536) (hSP1 : 2 ≤ c.SP) (hSP2 : c.SP < 65536)
    (hcy1 : 11 ≤ Cycles) (hcy2 : Cycles < 4294967296)
    (hop : memory.Data c.PC = 0x20)
    (hlo : memory.Data ((c.PC + 1) % 65536) = lo)
    (hhi : memory.Data ((c.PC + 2) % 65536) = hi)
    (hlo8 : lo < 256) (hhi8 : hi < 256)
    (hrts : memory.Data (lo + 256 * hi) = 0x60)
    (hT1 : lo + 256 * hi ≠ c.SP) (hT2 : lo + 256 * hi ≠ c.SP - 1) :
    ∃ c1 m1 c2,
      c.ExecuteIter Cycles memory = some (.next c1 (Cycles - 6) m1) ∧
      c1.PC = lo + 256 * hi ∧
      c1.ExecuteIter (Cycles - 6) m1 = some (.next c2 (Cycles - 11) m1) ∧
      c2.PC = (c.PC + 3) % 65536 ∧ c2.SP = c.SP := by
  have hT : (lo + 256 * hi) % 65536 = lo + 256 * hi := by omega
  have e1 : (4294967290 + Cycles) % 4294967296 = Cycles - 6 := by omega
  have e2 : (4294967291 + (Cycles - 6)) % 4294967296 = Cycles - 11 := by omega
  have eS : (65534 + c.SP) % 65536 = c.SP - 2 := by omega
  have a1 : c.SP - 2 + 1 = c.SP - 1 := by omega
  have a2 : c.SP - 2 + 2 = c.SP := by omega
  have a3 : c.SP ≠ c.SP - 1 := by omega
  have hj := CPU.step_JSR c Cycles memory c.PC c.SP lo hi rfl rfl hPC hop hlo hhi hlo8
    (by omega) (by omega) hSP2
  rw [hT, e1, eS] at hj
  have hrd1 : ((memory.set c.SP (((c.PC + 2) % 65536) / 256)).set (c.SP - 1)
      (((c.PC + 2) % 65536) % 256)).Data (lo + 256 * hi) = 0x60 := by
    simp only [Mem.set, hT1, hT2, ↓reduceIte, hrts]
  have hrd2 : ((memory.set c.SP (((c.PC + 2) % 65536) / 256)).set (c.SP - 1)
      (((c.PC + 2) % 65536) % 256)).Data (c.SP - 2 + 1) = ((c.PC + 2) % 65536) % 256 := by
    simp only [Mem.set, a1, ↓reduceIte]
    omega
  have hrd3 : ((memory.set c.SP (((c.PC + 2) % 65536) / 256)).set (c.SP - 1)
      (((c.PC + 2) % 65536) % 256)).Data (c.SP - 2 + 2) = ((c.PC + 2) % 65536) / 256 := by
    simp only [Mem.set, a2, a3, ↓reduceIte]
    omega
  have hr := CPU.step_RTS { c with PC := lo + 256 * hi, SP := c.SP - 2 } (Cycles - 6)
    ((memory.set c.SP (((c.PC + 2) % 65536) / 256)).set (c.SP - 1)
      (((c.PC + 2) % 65536) % 256))
    (lo + 256 * hi) (c.SP - 2) (((c.PC + 2) % 65536) % 256) (((c.PC + 2) % 65536) / 256)
    rfl rfl (by omega) hrd1 hrd2 hrd3 (by omega) (by omega) (by omega)
  rw [e2] at hr
  refine ⟨_, _, _, hj, rfl, hr, ?_, ?_⟩
  · show (((c.PC + 2) % 65536 % 256 + 256 * ((c.PC + 2) % 65536 / 256)) % 65536 + 1) % 65536
      = (c.PC + 3) % 65536
    omega
  · show (c.SP - 2 + 2) % 65536 = c.SP
    omega

/-- C6, amended, on `JSR 0x1234` at `0x8000` with `0x60` written at `0x1234`. -/
theorem C6_jsr_rts_roundtrip_witness :
    ∃ c1 m1 c2,
      cpuAt8000.ExecuteIter 12 (jsr1234Mem.set 0x1234 0x60) = some (.next c1 (12 - 6) m1) ∧
      c1.PC = 0x34 + 256 * 0x12 ∧
      c1.ExecuteIter (12 - 6) m1 = some (.next c2 (12 - 11) m1) ∧
      c2.PC = (cpuAt8000.PC + 3) % 65536 ∧ c2.SP = cpuAt8000.SP :=
  C6_jsr_rts_roundtrip cpuAt8000 (jsr1234Mem.set 0x1234 0x60) 12 0x34 0x12
    (by decide) (by decide) (by decide) (by decide) (by decide) rfl rfl rfl
    (by decide) (by decide) rfl (by decide) (by decide)

/-- C7 (the code does otherwise): scenario C with target `T = 0x8000`.  `Execute(12)` runs
JSR (6 cycles) and RTS (5 cycles), which leaves `PC = 0xFFFF` and 1 cycle; the loop then
fetches a third opcode, `0x00` at `0xFFFF`, and returns from the `default` clause with
`PC = 0x0000`.  No run of this call returns with `PC = 0xFFFF`. -/
theorem C7_scenarioC_returns_PC_zero :
    resetCPU.Returns 12 (scenarioCMem 0x8000) .unhandled { resetCPU with PC := 0 } 0
      (((scenarioCMem 0x8000).set 0x0100 (0xFFFE / 256)).set 0x00FF (0xFFFE % 256)) ∧
    ¬ ∃ why c1 Cycles1 m1,
      resetCPU.Returns 12 (scenarioCMem 0x8000) why c1 Cycles1 m1 ∧ c1.PC = 0xFFFF := by
  have h1 : resetCPU.ExecuteIter 12 (scenarioCMem 0x8000) =
      some (.next { resetCPU with PC := 0x8000, SP := 0x00FE } 6
        (((scenarioCMem 0x8000).set 0x0100 (0xFFFE / 256)).set 0x00FF (0xFFFE % 256))) :=
    CPU.step_JSR resetCPU 12 (scenarioCMem 0x8000) 0xFFFC 0x0100 0x00 0x80 rfl rfl
      (by decide) rfl rfl rfl (by decide) (by decide) (by decide) (by decide)
  have h2 : CPU.ExecuteIter { resetCPU with PC := 0x8000, SP := 0x00FE } 6
        (((scenarioCMem 0x8000).set 0x0100 (0xFFFE / 256)).set 0x00FF (0xFFFE % 256)) =
      some (.next { resetCPU with PC := 0xFFFF } 1
        (((scenarioCMem 0x8000).set 0x0100 (0xFFFE / 256)).set 0x00FF (0xFFFE % 256))) :=
    CPU.step_RTS _ 6 _ 0x8000 0x00FE 0xFE 0xFF rfl rfl (by decide) rfl rfl rfl (by decide)
      (by decide) (by decide)
  have h3 : CPU.ExecuteIter { resetCPU with PC := 0xFFFF } 1
        (((scenarioCMem 0x8000).set 0x0100 (0xFFFE / 256)).set 0x00FF (0xFFFE % 256)) =
      some (.halt .unhandled { resetCPU with PC := 0 } 0
        (((scenarioCMem 0x8000).set 0x0100 (0xFFFE / 256)).set 0x00FF (0xFFFE % 256))) :=
    CPU.step_unhandled _ 1 _ 0xFFFF 0 rfl (by decide) rfl (by decide)
  have hrun : resetCPU.Returns 12 (scenarioCMem 0x8000) .unhandled { resetCPU with PC := 0 } 0
      (((scenarioCMem 0x8000).set 0x0100 (0xFFFE / 256)).set 0x00FF (0xFFFE % 256)) :=
    ⟨3, by rw [CPU.ExecuteFuel_next 2 h1, CPU.ExecuteFuel_next 1 h2,
      CPU.ExecuteFuel_halt 0 h3]⟩
  refine ⟨hrun, ?_⟩
  rintro ⟨why, c1, Cycles1, m1, h, hpc⟩
  have hc := (CPU.Returns_unique h hrun).2.1
  rw [hc] at hpc
  exact absurd hpc (by decide)

namespace CPU

/-- On a memory filled with `0x18` every pass of the loop is a CLC that goes back to the
loop condition, so no bound on the number of passes lets `Execute` return. -/
theorem ExecuteFuel_clcMem (fuel : Nat) : ∀ (c : CPU) (Cycles : Nat), c.PC < 65536 →
    c.ExecuteFuel fuel Cycles clcMem = .running := by
  induction fuel with
  | zero => intro c Cycles _; rfl
  | succ n ih =>
    intro c Cycles hPC
    rw [ExecuteFuel_next n (ExecuteIter_CLC c Cycles clcMem hPC rfl)]
    exact ih _ _ (Nat.mod_lt _ (by norm_num))

end CPU

/-- C8 (the code does otherwise): with the memory filled entirely with `0x18` (CLC),
`Execute(1)` on the processor after `Reset` never returns: for every bound on the number
of passes through the loop the run is still in the loop. -/
theorem C8_never_terminates_on_clc :
    ∀ fuel, resetCPU.ExecuteFuel fuel 1 clcMem = .running :=
  fun fuel => CPU.ExecuteFuel_clcMem fuel resetCPU 1 (by decide)

/-- JSR entered with `SP = 1`: the two stack cells are `1` and `0`, and the 16-bit
`SP -= 2` wraps to `0xFFFF`. -/
theorem JSR_at_SP_one_wraps :
    jsr1234Mem.Data cpuSP1.PC = 0x20 ∧ cpuSP1.PC + 2 ≤ 0xFFFF ∧ cpuSP1.SP = 1 ∧
    cpuSP1.ExecuteIter 6 jsr1234Mem =
      some (.next { cpuSP1 with PC := 0x1234, SP := 0xFFFF } 0
        ((jsr1234Mem.set 1 (0x8002 / 256)).set 0 (0x8002 % 256))) :=
  ⟨rfl, by decide, rfl,
   CPU.step_JSR cpuSP1 6 jsr1234Mem 0x8000 1 0x34 0x12 rfl rfl (by decide) rfl rfl rfl
     (by decide) (by decide) (by decide) (by decide)⟩

/-- C9: with `0x20` at `P = PC` (`P + 2 <= 0xFFFF`), operand bytes `lo`, `hi`, a stack
pointer `S >= 1` and a budget that passes the guard, the pass for JSR stores the high
byte of `P + 2` at `S` and its low byte at `S - 1`, sets `SP` to `S - 2` in 16-bit
arithmetic (`S - 2` when `S >= 2`, and `0xFFFF` when `S = 1`), sets `PC` to the operand
word, and leaves every other cell, `A`, `X`, `Y` and the flags unchanged. -/
theorem C9_jsr_pushes_return_address (c : CPU) (memory : Mem) (Cycles lo hi : Nat)
    (hPC : c.PC + 2 ≤ 0xFFFF) (hSP1 : 1 ≤ c.SP) (hSP2 : c.SP < 65536)
    (hcy1 : 4 ≤ Cycles) (hcy2 : Cycles < 4294967296)
    (hop : memory.Data c.PC = 0x20)
    (hlo : memory.Data (c.PC + 1) = lo) (hhi : memory.Data (c.PC + 2) = hi)
    (hlo8 : lo < 256) (hhi8 : hi < 256) :
    ∃ c1 m1,
      c.ExecuteIter Cycles memory =
        some (.next c1 ((4294967290 + Cycles) % 4294967296) m1) ∧
      m1.Data c.SP = (c.PC + 2) / 256 ∧ m1.Data (c.SP - 1) = (c.PC + 2) % 256 ∧
      c1.SP = (65534 + c.SP) % 65536 ∧ (2 ≤ c.SP → c1.SP = c.SP - 2) ∧
      c1.PC = lo + 256 * hi ∧
      (∀ a, a ≠ c.SP → a ≠ c.SP - 1 → m1.Data a = memory.Data a) ∧
      c1.A = c.A ∧ c1.X = c.X ∧ c1.Y = c.Y ∧ c1.C = c.C ∧ c1.Z = c.Z ∧ c1.I = c.I ∧
      c1.D = c.D ∧ c1.B = c.B ∧ c1.V = c.V ∧ c1.N = c.N := by
  have p1 : (c.PC + 1) % 65536 = c.PC + 1 := by omega
  have p2 : (c.PC + 2) % 65536 = c.PC + 2 := by omega
  have hT : (lo + 256 * hi) % 65536 = lo + 256 * hi := by omega
  have a3 : c.SP ≠ c.SP - 1 := by omega
  have hj := CPU.step_JSR c Cycles memory c.PC c.SP lo hi rfl rfl (by omega) hop
    (by rw [p1]; exact hlo) (by rw [p2]; exact hhi) hlo8 (by omega) hSP1 hSP2
  rw [hT, p2] at hj
  refine ⟨_, _, hj, ?_, ?_, rfl, ?_, rfl, ?_, rfl, rfl, rfl, rfl, rfl, rfl, rfl, rfl, rfl,
    rfl⟩
  · simp only [Mem.set, a3, ↓reduceIte]
    omega
  · simp only [Mem.set, ↓reduceIte]
    omega
  · intro h
    show (65534 + c.SP) % 65536 = c.SP - 2
    omega
  · intro a h1 h2
    simp only [Mem.set, h1, h2, ↓reduceIte]

/-- C9 on `JSR 0x1234` at `0x8000` with `SP = 0x0100` and budget 6. -/
theorem C9_jsr_pushes_return_address_witness :
    ∃ c1 m1,
      cpuAt8000.ExecuteIter 6 jsr1234Mem =
        some (.next c1 ((4294967290 + 6) % 4294967296) m1) ∧
      m1.Data cpuAt8000.SP = (cpuAt8000.PC + 2) / 256 ∧
      m1.Data (cpuAt8000.SP - 1) = (cpuAt8000.PC + 2) % 256 ∧
      c1.SP = (65534 + cpuAt8000.SP) % 65536 ∧
      (2 ≤ cpuAt8000.SP → c1.SP = cpuAt8000.SP - 2) ∧
      c1.PC = 0x34 + 256 * 0x12 ∧
      (∀ a, a ≠ cpuAt8000.SP → a ≠ cpuAt8000.SP - 1 → m1.Data a = jsr1234Mem.Data a) ∧
      c1.A = cpuAt8000.A ∧ c1.X = cpuAt8000.X ∧ c1.Y = cpuAt8000.Y ∧ c1.C = cpuAt8000.C ∧
      c1.Z = cpuAt8000.Z ∧ c1.I = cpuAt8000.I ∧ c1.D = cpuAt8000.D ∧ c1.B = cpuAt8000.B ∧
      c1.V = cpuAt8000.V ∧ c1.N = cpuAt8000.N :=
  C9_jsr_pushes_return_address cpuAt8000 jsr1234Mem 6 0x34 0x12 (by decide) (by decide)
    (by decide) (by decide) (by decide) rfl rfl rfl (by decide) (by decide)

/-- C10: with `0xB5` at `PC` and operand byte `base`, the pass for load-A-zero-page,X
(entered with at least 4 cycles) reads the cell `(base + X) mod 256`: `A` becomes that
cell, `Z` and `N` are set from it, the address is below 256 (it is `base + X - 256` when
`base + X >= 256` for bytes `base`, `X`), and the loaded value does not depend on any
cell at an address `>= 256` other than the two instruction bytes. -/
theorem C10_lda_zpx_wraps (c : CPU) (memory : Mem) (Cycles base : Nat)
    (hPC : c.PC < 65536) (hcy1 : 4 ≤ Cycles) (hcy2 : Cycles < 4294967296)
    (hop : memory.Data c.PC = 0xB5)
    (hbase : memory.Data ((c.PC + 1) % 65536) = base) :
    (∃ c1, c.ExecuteIter Cycles memory = some (.next c1 (Cycles - 4) memory) ∧
      c1.A = memory.Data ((base + c.X) % 256) ∧
      c1.Z = (if memory.Data ((base + c.X) % 256) = 0 then 1 else 0) ∧
      c1.N = (if memory.Data ((base + c.X) % 256) &&& 0x80 ≠ 0 then 1 else 0)) ∧
    (base + c.X) % 256 < 256 ∧
    (base < 256 → c.X < 256 → 256 ≤ base + c.X → (base + c.X) % 256 = base + c.X - 256) ∧
    (∀ memory2 : Mem, memory2.Data c.PC = 0xB5 →
      memory2.Data ((c.PC + 1) % 65536) = base →
      (∀ a, a < 256 → memory2.Data a = memory.Data a) →
      ∃ c2, c.ExecuteIter Cycles memory2 = some (.next c2 (Cycles - 4) memory2) ∧
        c2.A = memory.Data ((base + c.X) % 256)) := by
  have hg : ¬ (4294967295 + Cycles) % 4294967296 < 3 := by omega
  have e : (4294967292 + Cycles) % 4294967296 = Cycles - 4 := by omega
  have hlt : (base + c.X) % 256 < 256 := Nat.mod_lt _ (by norm_num)
  refine ⟨?_, hlt, ?_, ?_⟩
  · rw [CPU.ExecuteIter_LDA_ZPX c Cycles memory hPC hop hg, hbase, e]
    exact ⟨_, rfl, rfl, rfl, flag_gt_iff_ne _⟩
  · intro h1 h2 h3
    omega
  · intro memory2 hop2 hbase2 hsame
    rw [CPU.ExecuteIter_LDA_ZPX c Cycles memory2 hPC hop2 hg, hbase2, e]
    exact ⟨_, rfl, hsame _ hlt⟩

/-- C10 on `LDA 0xF0,X` at `0x8000` with `X = 0x10`: the address wraps to `0x00`. -/
theorem C10_lda_zpx_wraps_witness :
    (∃ c1, cpuX10.ExecuteIter 4 zpxMem = some (.next c1 (4 - 4) zpxMem) ∧
      c1.A = zpxMem.Data ((0xF0 + cpuX10.X) % 256) ∧
      c1.Z = (if zpxMem.Data ((0xF0 + cpuX10.X) % 256) = 0 then 1 else 0) ∧
      c1.N = (if zpxMem.Data ((0xF0 + cpuX10.X) % 256) &&& 0x80 ≠ 0 then 1 else 0)) ∧
    (0xF0 + cpuX10.X) % 256 < 256 ∧
    (0xF0 < 256 → cpuX10.X < 256 → 256 ≤ 0xF0 + cpuX10.X →
      (0xF0 + cpuX10.X) % 256 = 0xF0 + cpuX10.X - 256) ∧
    (∀ memory2 : Mem, memory2.Data cpuX10.PC = 0xB5 →
      memory2.Data ((cpuX10.PC + 1) % 65536) = 0xF0 →
      (∀ a, a < 256 → memory2.Data a = zpxMem.Data a) →
      ∃ c2, cpuX10.ExecuteIter 4 memory2 = some (.next c2 (4 - 4) memory2) ∧
        c2.A = zpxMem.Data ((0xF0 + cpuX10.X) % 256)) :=
  C10_lda_zpx_wraps cpuX10 zpxMem 4 0xF0 (by decide) (by decide) (by decide) rfl rfl

namespace CPU

theorem ExecuteIter_SEC (c : CPU) (Cycles : Nat) (memory : Mem)
    (hPC : c.PC < 65536) (hop : memory.Data c.PC = 0x38) :
    c.ExecuteIter Cycles memory =
      some (.next { c with PC := (c.PC + 1) % 65536, C := 1 }
        ((4294967294 + Cycles) % 4294967296) memory) := by
  have e3 : (4294967295 + (4294967295 + Cycles) % 4294967296) % 4294967296
      = (4294967294 + Cycles) % 4294967296 := by omega
  unfold ExecuteIter
  rw [FetchByte_eq c Cycles memory hPC]
  simp only [hop, INS_LDA_IM, INS_LDA_ZP, INS_LDA_ZPX, INS_JSR, INS_RTS, INS_CLC, INS_SEC,
    Nat.reduceEqDiff, ↓reduceIte, e3]

theorem ExecuteIter_TAY (c : CPU) (Cycles : Nat) (memory : Mem)
    (hPC : c.PC < 65536) (hop : memory.Data c.PC = 0xA8) :
    c.ExecuteIter Cycles memory =
      some (.next { c with PC := (c.PC + 1) % 65536, Y := c.A,
                           Z := if c.A = 0 then 1 else 0,
                           N := if (c.A &&& 0x80) > 0 then 1 else 0 }
        ((4294967294 + Cycles) % 4294967296) memory) := by
  have e3 : (4294967295 + (4294967295 + Cycles) % 4294967296) % 4294967296
      = (4294967294 + Cycles) % 4294967296 := by omega
  unfold ExecuteIter
  rw [FetchByte_eq c Cycles memory hPC]
  simp only [hop, INS_LDA_IM, INS_LDA_ZP, INS_LDA_ZPX, INS_JSR, INS_RTS, INS_CLC, INS_SEC,
    INS_LDX_IM, INS_LDY_IM, INS_TAX, INS_TAY, Nat.reduceEqDiff, ↓reduceIte,
    SetZeroAndNegativeFlags, e3]

theorem ExecuteIter_TXA (c : CPU) (Cycles : Nat) (memory : Mem)
    (hPC : c.PC < 65536) (hop : memory.Data c.PC = 0x8A) :
    c.ExecuteIter Cycles memory =
      some (.next { c with PC := (c.PC + 1) % 65536, A := c.X,
                           Z := if c.X = 0 then 1 else 0,
                           N := if (c.X &&& 0x80) > 0 then 1 else 0 }
        ((4294967294 + Cycles) % 4294967296) memory) := by
  have e3 : (4294967295 + (4294967295 + Cycles) % 4294967296) % 4294967296
      = (4294967294 + Cycles) % 4294967296 := by omega
  unfold ExecuteIter
  rw [FetchByte_eq c Cycles memory hPC]
  simp only [hop, INS_LDA_IM, INS_LDA_ZP, INS_LDA_ZPX, INS_JSR, INS_RTS, INS_CLC, INS_SEC,
    INS_LDX_IM, INS_LDY_IM, INS_TAX, INS_TAY, INS_TXA, Nat.reduceEqDiff, ↓reduceIte,
    SetZeroAndNegativeFlags, e3]

theorem ExecuteIter_TYA (c : CPU) (Cycles : Nat) (memory : Mem)
    (hPC : c.PC < 65536) (hop : memory.Data c.PC = 0x98) :
    c.ExecuteIter Cycles memory =
      some (.next { c with PC := (c.PC + 1) % 65536, A := c.Y,
                           Z := if c.Y = 0 then 1 else 0,
                           N := if (c.Y &&& 0x80) > 0 then 1 else 0 }
        ((4294967294 + Cycles) % 4294967296) memory) := by
  have e3 : (4294967295 + (4294967295 + Cycles) % 4294967296) % 4294967296
      = (4294967294 + Cycles) % 4294967296 := by omega
  unfold ExecuteIter
  rw [FetchByte_eq c Cycles memory hPC]
  simp only [hop, INS_LDA_IM, INS_LDA_ZP, INS_LDA_ZPX, INS_JSR, INS_RTS, INS_CLC, INS_SEC,
    INS_LDX_IM, INS_LDY_IM, INS_TAX, INS_TAY, INS_TXA, INS_TYA, Nat.reduceEqDiff, ↓reduceIte,
    SetZeroAndNegativeFlags, e3]

end CPU

/-- C11: each of TAX (`0xAA`), TAY (`0xA8`), TXA (`0x8A`), TYA (`0x98`) copies the source
register into the destination, leaves the source unchanged, sets `Z = 1` iff the new
value is 0 and `N = 1` iff its bit 7 is set (whatever `Z` and `N` were before), and
leaves the third register, `SP`, `C` and memory unchanged. -/
theorem C11_transfers (c : CPU) (memory : Mem) (Cycles : Nat) (hPC : c.PC < 65536) :
    (memory.Data c.PC = 0xAA → ∃ c1 cy1,
      c.ExecuteIter Cycles memory = some (.next c1 cy1 memory) ∧
      c1.X = c.A ∧ c1.A = c.A ∧ c1.Z = (if c.A = 0 then 1 else 0) ∧
      c1.N = (if c.A &&& 0x80 ≠ 0 then 1 else 0) ∧
      c1.Y = c.Y ∧ c1.SP = c.SP ∧ c1.C = c.C) ∧
    (memory.Data c.PC = 0xA8 → ∃ c1 cy1,
      c.ExecuteIter Cycles memory = some (.next c1 cy1 memory) ∧
      c1.Y = c.A ∧ c1.A = c.A ∧ c1.Z = (if c.A = 0 then 1 else 0) ∧
      c1.N = (if c.A &&& 0x80 ≠ 0 then 1 else 0) ∧
      c1.X = c.X ∧ c1.SP = c.SP ∧ c1.C = c.C) ∧
    (memory.Data c.PC = 0x8A → ∃ c1 cy1,
      c.ExecuteIter Cycles memory = some (.next c1 cy1 memory) ∧
      c1.A = c.X ∧ c1.X = c.X ∧ c1.Z = (if c.X = 0 then 1 else 0) ∧
      c1.N = (if c.X &&& 0x80 ≠ 0 then 1 else 0) ∧
      c1.Y = c.Y ∧ c1.SP = c.SP ∧ c1.C = c.C) ∧
    (memory.Data c.PC = 0x98 → ∃ c1 cy1,
      c.ExecuteIter Cycles memory = some (.next c1 cy1 memory) ∧
      c1.A = c.Y ∧ c1.Y = c.Y ∧ c1.Z = (if c.Y = 0 then 1 else 0) ∧
      c1.N = (if c.Y &&& 0x80 ≠ 0 then 1 else 0) ∧
      c1.X = c.X ∧ c1.SP = c.SP ∧ c1.C = c.C) := by
  refine ⟨fun hop => ?_, fun hop => ?_, fun hop => ?_, fun hop => ?_⟩
  · exact ⟨_, _, CPU.ExecuteIter_TAX c Cycles memory hPC hop, rfl, rfl, rfl,
      flag_gt_iff_ne _, rfl, rfl, rfl⟩
  · exact ⟨_, _, CPU.ExecuteIter_TAY c Cycles memory hPC hop, rfl, rfl, rfl,
      flag_gt_iff_ne _, rfl, rfl, rfl⟩
  · exact ⟨_, _, CPU.ExecuteIter_TXA c Cycles memory hPC hop, rfl, rfl, rfl,
      flag_gt_iff_ne _, rfl, rfl, rfl⟩
  · exact ⟨_, _, CPU.ExecuteIter_TYA c Cycles memory hPC hop, rfl, rfl, rfl,
      flag_gt_iff_ne _, rfl, rfl, rfl⟩

/-- C11 on TAX with `A = 0x80`: `X` becomes `0x80`, `Z = 0`, `N = 1`. -/
theorem C11_transfers_witness :
    ∃ c1 cy1, cpuA80.ExecuteIter 2 taxMem = some (.next c1 cy1 taxMem) ∧
      c1.X = cpuA80.A ∧ c1.A = cpuA80.A ∧ c1.Z = (if cpuA80.A = 0 then 1 else 0) ∧
      c1.N = (if cpuA80.A &&& 0x80 ≠ 0 then 1 else 0) ∧
      c1.Y = cpuA80.Y ∧ c1.SP = cpuA80.SP ∧ c1.C = cpuA80.C :=
  (C11_transfers cpuA80 taxMem 2 (by decide)).1 rfl

/-- C12 as stated fails for RTS: `Execute` started at an RTS opcode with counter 6 (state
after `Reset`, `0x60` at `0xFFFC`) finishes the instruction with counter 1, not 0: RTS
takes 5 cycles (opcode fetch 1, pop 2, `Cycles -= 2`). -/
theorem C12_counterexample :
    resetCPU.ExecuteIter 6 rtsMem =
      some (.next { resetCPU with PC := 1, SP := 0x0102 } 1 rtsMem) ∧
    (resetCPU.ExecuteIter 6 rtsMem).map Outcome.Cycles ≠ some (6 - 6) := by
  have h : resetCPU.ExecuteIter 6 rtsMem =
      some (.next { resetCPU with PC := 1, SP := 0x0102 } 1 rtsMem) := rfl
  refine ⟨h, ?_⟩
  rw [h]
  decide

/-- C12, amended: JSR (`0x20`) executed with a counter of at least 6 leaves the counter
6 lower, and RTS (`0x60`) executed with a counter of at least 5 leaves the counter 5
lower, the opcode fetch included (stack accesses in range). -/
theorem C12_jsr_rts_cycles (c : CPU) (memory : Mem) (Cycles : Nat)
    (hPC : c.PC < 65536) (hcy : Cycles < 4294967296) :
    (memory.Data c.PC = 0x20 → 1 ≤ c.SP → c.SP < 65536 → 6 ≤ Cycles →
      ∃ c1 m1, c.ExecuteIter Cycles memory = some (.next c1 (Cycles - 6) m1)) ∧
    (memory.Data c.PC = 0x60 → c.SP + 2 < 65536 → 5 ≤ Cycles →
      ∃ c1, c.ExecuteIter Cycles memory = some (.next c1 (Cycles - 5) memory)) := by
  refine ⟨fun hop h1 h2 h6 => ?_, fun hop hSP h5 => ?_⟩
  · have hg : ¬ (4294967295 + Cycles) % 4294967296 < 3 := by omega
    have e : (4294967290 + Cycles) % 4294967296 = Cycles - 6 := by omega
    exact ⟨_, _, by rw [CPU.ExecuteIter_JSR c Cycles memory hPC hop hg h1 h2, e]⟩
  · have hg : ¬ (4294967295 + Cycles) % 4294967296 < 4 := by omega
    have e : (4294967291 + Cycles) % 4294967296 = Cycles - 5 := by omega
    exact ⟨_, by rw [CPU.ExecuteIter_RTS c Cycles memory hPC hop hg hSP, e]⟩

/-- C12, amended, on the state after `Reset`: JSR with counter 6 and RTS with counter 6. -/
theorem C12_jsr_rts_cycles_witness :
    (∃ c1 m1, resetCPU.ExecuteIter 6 jsrMem = some (.next c1 (6 - 6) m1)) ∧
    (∃ c1, resetCPU.ExecuteIter 6 rtsMem = some (.next c1 (6 - 5) rtsMem)) :=
  ⟨(C12_jsr_rts_cycles resetCPU jsrMem 6 (by decide) (by decide)).1 rfl (by decide)
      (by decide) (by decide),
   (C12_jsr_rts_cycles resetCPU rtsMem 6 (by decide) (by decide)).2 rfl (by decide)
      (by decide)⟩

/-- C13 fails on the code: an implied instruction takes 2 cycles, the opcode fetch and
the `Cycles--` of its case. In Test 2 of `RunTests` (`Execute(3)`, which the test
announces as "TAX: 1 cycle", "Total needed: 3 cycles") LDA leaves the counter at 1 and
TAX takes it to `2^32 - 1`, not to 0; CLC started with counter 5 leaves 3. -/
theorem C13_implied_instructions_take_two_cycles :
    resetCPU.ExecuteIter 3 (test2Mem zeroCPU zeroMem 0x37) =
      some (.next { resetCPU with PC := 0xFFFE, A := 0x37 } 1
        (test2Mem zeroCPU zeroMem 0x37)) ∧
    ({ resetCPU with PC := 0xFFFE, A := 0x37 } : CPU).ExecuteIter 1
        (test2Mem zeroCPU zeroMem 0x37) =
      some (.next { resetCPU with PC := 0xFFFF, A := 0x37, X := 0x37 } 4294967295
        (test2Mem zeroCPU zeroMem 0x37)) ∧
    resetCPU.ExecuteIter 5 clcMem = some (.next { resetCPU with PC := 0xFFFD } 3 clcMem) :=
  ⟨rfl, rfl, rfl⟩

namespace CPU

theorem FetchByte_ite (c : CPU) (Cycles : Nat) (memory : Mem) :
    c.FetchByte Cycles memory =
      if c.PC < 65536 then
        some (memory.Data c.PC, { c with PC := (c.PC + 1) % 65536 },
          (4294967295 + Cycles) % 4294967296)
      else none := by
  by_cases h : c.PC < 65536
  · rw [if_pos h, FetchByte_eq c Cycles memory h]
  · have hr : memory.read c.PC = none := by
      unfold Mem.read
      exact if_neg h
    rw [if_neg h]
    unfold FetchByte
    rw [hr]

theorem PushWordToStack_ite (c : CPU) (Cycles : Nat) (memory : Mem) (Value : Nat) :
    c.PushWordToStack Cycles memory Value =
      if 1 ≤ c.SP ∧ c.SP < 65536 then
        some ({ c with SP := (65534 + c.SP) % 65536 }, (4294967294 + Cycles) % 4294967296,
          (memory.set c.SP (Value >>> 8)).set (c.SP - 1) (Value &&& 0xFF))
      else none := by
  by_cases h : 1 ≤ c.SP ∧ c.SP < 65536
  · rw [if_pos h, PushWordToStack_eq c Cycles memory Value h.1 h.2]
  · rw [if_neg h]
    unfold PushWordToStack
    by_cases h2 : c.SP < 65536
    · have h0 : c.SP = 0 := by omega
      have hw : ∀ m : Mem, m.write ((4294967295 + c.SP) % 4294967296) (Value &&& 0xFF)
          = none := by
        intro m
        unfold Mem.write
        refine if_neg ?_
        rw [h0]
        decide
      rw [Mem.write_eq _ _ _ h2]
      dsimp only
      rw [hw]
    · have hw : memory.write c.SP (Value >>> 8) = none := by
        unfold Mem.write
        exact if_neg h2
      rw [hw]

theorem PopWordFromStack_ite (c : CPU) (Cycles : Nat) (memory : Mem) :
    c.PopWordFromStack Cycles memory =
      if c.SP + 2 < 65536 then
        some ((memory.Data (c.SP + 1) ||| (memory.Data (c.SP + 2) <<< 8)) % 65536,
          { c with SP := (c.SP + 2) % 65536 }, (4294967294 + Cycles) % 4294967296)
      else none := by
  by_cases h : c.SP + 2 < 65536
  · rw [if_pos h, PopWordFromStack_eq c Cycles memory h]
  · rw [if_neg h]
    unfold PopWordFromStack
    by_cases h1 : c.SP + 1 < 65536
    · have hr : memory.read (c.SP + 2) = none := by
        unfold Mem.read
        exact if_neg h
      rw [Mem.read_eq _ _ h1]
      dsimp only
      rw [hr]
    · have hr : memory.read (c.SP + 1) = none := by
        unfold Mem.read
        exact if_neg h1
      rw [hr]

theorem ExecuteIter_LDA_ZP (c : CPU) (Cycles : Nat) (memory : Mem)
    (hPC : c.PC < 65536) (hop : memory.Data c.PC = 0xA5)
    (hcy : ¬ (4294967295 + Cycles) % 4294967296 < 2) :
    c.ExecuteIter Cycles memory =
      some (.next
        { c with
          PC := (c.PC + 2) % 65536,
          A := memory.Data (memory.Data ((c.PC + 1) % 65536) % 256),
          Z := if memory.Data (memory.Data ((c.PC + 1) % 65536) % 256) = 0 then 1 else 0,
          N := if (memory.Data (memory.Data ((c.PC + 1) % 65536) % 256) &&& 0x80) > 0
                then 1 else 0 }
        ((4294967293 + Cycles) % 4294967296) memory) := by
  have h1 : (c.PC + 1) % 65536 < 65536 := Nat.mod_lt _ (by norm_num)
  have e1 : ((c.PC + 1) % 65536 + 1) % 65536 = (c.PC + 2) % 65536 := by omega
  have e3 : (4294967295 + (4294967295 + (4294967295 + Cycles) % 4294967296)
      % 4294967296) % 4294967296 = (4294967293 + Cycles) % 4294967296 := by
    omega
  have hf := FetchByte_eq { c with PC := (c.PC + 1) % 65536 }
    ((4294967295 + Cycles) % 4294967296) memory h1
  dsimp only at hf
  unfold ExecuteIter
  rw [FetchByte_eq c Cycles memory hPC]
  simp only [hop, INS_LDA_IM, INS_LDA_ZP, Nat.reduceEqDiff, ↓reduceIte, hcy, hf,
    ReadByte_eq, SetZeroAndNegativeFlags, e1, e3]

theorem ExecuteIter_LDX_IM (c : CPU) (Cycles : Nat) (memory : Mem)
    (hPC : c.PC < 65536) (hop : memory.Data c.PC = 0xA2)
    (hcy : ¬ (4294967295 + Cycles) % 4294967296 < 1) :
    c.ExecuteIter Cycles memory =
      some (.next { c with PC := (c.PC + 2) % 65536,
                           X := memory.Data ((c.PC + 1) % 65536),
                           Z := if memory.Data ((c.PC + 1) % 65536) = 0 then 1 else 0,
                           N := if (memory.Data ((c.PC + 1) % 65536) &&& 0x80) > 0 then 1 else 0 }
                  ((4294967294 + Cycles) % 4294967296) memory) := by
  have h1 : (c.PC + 1) % 65536 < 65536 := Nat.mod_lt _ (by norm_num)
  have e1 : ((c.PC + 1) % 65536 + 1) % 65536 = (c.PC + 2) % 65536 := by omega
  have e2 : (4294967295 + (4294967295 + Cycles) % 4294967296) % 4294967296
      = (4294967294 + Cycles) % 4294967296 := by omega
  have hf := FetchByte_eq { c with PC := (c.PC + 1) % 65536 }
    ((4294967295 + Cycles) % 4294967296) memory h1
  dsimp only at hf
  unfold ExecuteIter
  rw [FetchByte_eq c Cycles memory hPC]
  simp only [hop, INS_LDA_IM, INS_LDA_ZP, INS_LDA_ZPX, INS_JSR, INS_RTS, INS_CLC, INS_SEC,
    INS_LDX_IM, Nat.reduceEqDiff, ↓reduceIte, hcy, hf, SetZeroAndNegativeFlags, e1, e2]

theorem ExecuteIter_LDY_IM (c : CPU) (Cycles : Nat) (memory : Mem)
    (hPC : c.PC < 65536) (hop : memory.Data c.PC = 0xA0)
    (hcy : ¬ (4294967295 + Cycles) % 4294967296 < 1) :
    c.ExecuteIter Cycles memory =
      some (.next { c with PC := (c.PC + 2) % 65536,
                           Y := memory.Data ((c.PC + 1) % 65536),
                           Z := if memory.Data ((c.PC + 1) % 65536) = 0 then 1 else 0,
                           N := if (memory.Data ((c.PC + 1) % 65536) &&& 0x80) > 0 then 1 else 0 }
                  ((4294967294 + Cycles) % 4294967296) memory) := by
  have h1 : (c.PC + 1) % 65536 < 65536 := Nat.mod_lt _ (by norm_num)
  have e1 : ((c.PC + 1) % 65536 + 1) % 65536 = (c.PC + 2) % 65536 := by omega
  have e2 : (4294967295 + (4294967295 + Cycles) % 4294967296) % 4294967296
      = (4294967294 + Cycles) % 4294967296 := by omega
  have hf := FetchByte_eq { c with PC := (c.PC + 1) % 65536 }
    ((4294967295 + Cycles) % 4294967296) memory h1
  dsimp only at hf
  unfold ExecuteIter
  rw [FetchByte_eq c Cycles memory hPC]
  simp only [hop, INS_LDA_IM, INS_LDA_ZP, INS_LDA_ZPX, INS_JSR, INS_RTS, INS_CLC, INS_SEC,
    INS_LDX_IM, INS_LDY_IM, Nat.reduceEqDiff, ↓reduceIte, hcy, hf, SetZeroAndNegativeFlags,
    e1, e2]

/-- JSR whose push indexes outside the array. -/
theorem ExecuteIter_JSR_fault (c : CPU) (Cycles : Nat) (memory : Mem)
    (hPC : c.PC < 65536) (hop : memory.Data c.PC = 0x20)
    (hcy : ¬ (4294967295 + Cycles) % 4294967296 < 3)
    (hSP : ¬ (1 ≤ c.SP ∧ c.SP < 65536)) :
    c.ExecuteIter Cycles memory = none := by
  have h1 : (c.PC + 1) % 65536 < 65536 := Nat.mod_lt _ (by norm_num)
  have hf := FetchWord_eq { c with PC := (c.PC + 1) % 65536 }
    ((4294967295 + Cycles) % 4294967296) memory h1
  dsimp only at hf
  unfold ExecuteIter
  rw [FetchByte_eq c Cycles memory hPC]
  simp only [hop, INS_LDA_IM, INS_LDA_ZP, INS_LDA_ZPX, INS_JSR, Nat.reduceEqDiff, ↓reduceIte,
    hcy, hf, PushWordToStack_ite, hSP]

/-- RTS whose pop indexes outside the array. -/
theorem ExecuteIter_RTS_fault (c : CPU) (Cycles : Nat) (memory : Mem)
    (hPC : c.PC < 65536) (hop : memory.Data c.PC = 0x60)
    (hcy : ¬ (4294967295 + Cycles) % 4294967296 < 4)
    (hSP : ¬ c.SP + 2 < 65536) :
    c.ExecuteIter Cycles memory = none := by
  unfold ExecuteIter
  rw [FetchByte_eq c Cycles memory hPC]
  simp only [hop, INS_LDA_IM, INS_LDA_ZP, INS_LDA_ZPX, INS_JSR, INS_RTS, Nat.reduceEqDiff,
    ↓reduceIte, hcy, PopWordFromStack_ite, hSP]

end CPU

namespace CPU

/-- One pass through the loop, summarised. Either an array index is out of range, which
happens only in the push of JSR and in the pop of RTS, or the pass leaves the flags `D`
and `I` alone, leaves memory alone unless the opcode is `0x20`, leaves every cell other
than `SP` and `SP - 1` alone, and if it is a `return` it has only advanced `PC`, from
the `default` clause exactly when the opcode is none of the 13 of the `switch`. -/
theorem ExecuteIter_cases (c : CPU) (Cycles : Nat) (memory : Mem) (hPC : c.PC < 65536) :
    (c.ExecuteIter Cycles memory = none ∧
      ((memory.Data c.PC = 0x20 ∧ ¬ (1 ≤ c.SP ∧ c.SP < 65536)) ∨
       (memory.Data c.PC = 0x60 ∧ ¬ c.SP + 2 < 65536))) ∨
    (∃ o, c.ExecuteIter Cycles memory = some o ∧
      o.cpu.PC < 65536 ∧ o.cpu.D = c.D ∧ o.cpu.I = c.I ∧
      (memory.Data c.PC ≠ 0x20 → o.memory = memory) ∧
      (∀ a, a ≠ c.SP → a ≠ c.SP - 1 → o.memory.Data a = memory.Data a) ∧
      (∀ why c1 cy1 m1, o = .halt why c1 cy1 m1 →
        c1 = { c with PC := (c.PC + 1) % 65536 } ∧ m1 = memory ∧ why ≠ .loopEnd ∧
        (why = .unhandled ↔ memory.Data c.PC ∉
          [0xA9, 0xA5, 0xB5, 0x20, 0x60, 0x18, 0x38, 0xA2, 0xA0, 0xAA, 0xA8, 0x8A, 0x98]))) := by
  have hlt : ∀ a : Nat, a % 65536 < 65536 := fun a => Nat.mod_lt _ (by norm_num)
  by_cases hmem : memory.Data c.PC ∈
      [0xA9, 0xA5, 0xB5, 0x20, 0x60, 0x18, 0x38, 0xA2, 0xA0, 0xAA, 0xA8, 0x8A, 0x98]
  · have hmem2 := hmem
    simp only [List.mem_cons, List.mem_singleton, List.not_mem_nil, or_false] at hmem2
    have hb : ∀ k, ((memory.Data c.PC = 0xA9 ∧ k = 1) ∨ (memory.Data c.PC = 0xA5 ∧ k = 2) ∨
           (memory.Data c.PC = 0xB5 ∧ k = 3) ∨ (memory.Data c.PC = 0x20 ∧ k = 3) ∨
           (memory.Data c.PC = 0x60 ∧ k = 4) ∨ (memory.Data c.PC = 0xA2 ∧ k = 1) ∨
           (memory.Data c.PC = 0xA0 ∧ k = 1)) →
        (4294967295 + Cycles) % 4294967296 < k →
        ∃ o, c.ExecuteIter Cycles memory = some o ∧
          o.cpu.PC < 65536 ∧ o.cpu.D = c.D ∧ o.cpu.I = c.I ∧
          (memory.Data c.PC ≠ 0x20 → o.memory = memory) ∧
          (∀ a, a ≠ c.SP → a ≠ c.SP - 1 → o.memory.Data a = memory.Data a) ∧
          (∀ why c1 cy1 m1, o = .halt why c1 cy1 m1 →
            c1 = { c with PC := (c.PC + 1) % 65536 } ∧ m1 = memory ∧ why ≠ .loopEnd ∧
            (why = .unhandled ↔ memory.Data c.PC ∉
              [0xA9, 0xA5, 0xB5, 0x20, 0x60, 0x18, 0x38, 0xA2, 0xA0, 0xAA, 0xA8, 0x8A,
                0x98])) := by
      intro k hop hcy
      refine ⟨_, ExecuteIter_budget c Cycles memory k hPC hop hcy, hlt _, rfl, rfl,
        fun _ => rfl, fun _ _ _ => rfl, ?_⟩
      intro why c1 cy1 m1 ho
      cases ho
      exact ⟨rfl, rfl, by decide, by simp only [reduceCtorEq, false_iff, not_not]; exact hmem⟩
    rcases hmem2 with e | e | e | e | e | e | e | e | e | e | e | e | e
    · by_cases hcy : (4294967295 + Cycles) % 4294967296 < 1
      · exact Or.inr (hb 1 (by simp only [e, true_and, true_or]) hcy)
      · exact Or.inr ⟨_, ExecuteIter_LDA_IM c Cycles memory hPC e hcy, hlt _, rfl, rfl,
          fun _ => rfl, fun _ _ _ => rfl, fun _ _ _ _ ho => by cases ho⟩
    · by_cases hcy : (4294967295 + Cycles) % 4294967296 < 2
      · exact Or.inr (hb 2 (by simp only [e, true_and, true_or, or_true]) hcy)
      · exact Or.inr ⟨_, ExecuteIter_LDA_ZP c Cycles memory hPC e hcy, hlt _, rfl, rfl,
          fun _ => rfl, fun _ _ _ => rfl, fun _ _ _ _ ho => by cases ho⟩
    · by_cases hcy : (4294967295 + Cycles) % 4294967296 < 3
      · exact Or.inr (hb 3 (by simp only [e, true_and, true_or, or_true]) hcy)
      · exact Or.inr ⟨_, ExecuteIter_LDA_ZPX c Cycles memory hPC e hcy, hlt _, rfl, rfl,
          fun _ => rfl, fun _ _ _ => rfl, fun _ _ _ _ ho => by cases ho⟩
    · by_cases hcy : (4294967295 + Cycles) % 4294967296 < 3
      · exact Or.inr (hb 3 (by simp only [e, true_and, true_or, or_true]) hcy)
      · by_cases hSP : 1 ≤ c.SP ∧ c.SP < 65536
        · refine Or.inr ⟨_, ExecuteIter_JSR c Cycles memory hPC e hcy hSP.1 hSP.2, hlt _,
            rfl, rfl, fun hne => absurd e hne, ?_, fun _ _ _ _ ho => by cases ho⟩
          intro a ha1 ha2
          simp only [Outcome.memory, Mem.set, if_neg ha1, if_neg ha2]
        · exact Or.inl ⟨ExecuteIter_JSR_fault c Cycles memory hPC e hcy hSP, Or.inl ⟨e, hSP⟩⟩
    · by_cases hcy : (4294967295 + Cycles) % 4294967296 < 4
      · exact Or.inr (hb 4 (by simp only [e, true_and, true_or, or_true]) hcy)
      · by_cases hSP : c.SP + 2 < 65536
        · exact Or.inr ⟨_, ExecuteIter_RTS c Cycles memory hPC e hcy hSP, hlt _, rfl, rfl,
            fun _ => rfl, fun _ _ _ => rfl, fun _ _ _ _ ho => by cases ho⟩
        · exact Or.inl ⟨ExecuteIter_RTS_fault c Cycles memory hPC e hcy hSP, Or.inr ⟨e, hSP⟩⟩
    · exact Or.inr ⟨_, ExecuteIter_CLC c Cycles memory hPC e, hlt _, rfl, rfl,
        fun _ => rfl, fun _ _ _ => rfl, fun _ _ _ _ ho => by cases ho⟩
    · exact Or.inr ⟨_, ExecuteIter_SEC c Cycles memory hPC e, hlt _, rfl, rfl,
        fun _ => rfl, fun _ _ _ => rfl, fun _ _ _ _ ho => by cases ho⟩
    · by_cases hcy : (4294967295 + Cycles) % 4294967296 < 1
      · exact Or.inr (hb 1 (by simp only [e, true_and, true_or, or_true]) hcy)
      · exact Or.inr ⟨_, ExecuteIter_LDX_IM c Cycles memory hPC e hcy, hlt _, rfl, rfl,
          fun _ => rfl, fun _ _ _ => rfl, fun _ _ _ _ ho => by cases ho⟩
    · by_cases hcy : (4294967295 + Cycles) % 4294967296 < 1
      · exact Or.inr (hb 1 (by simp only [e, true_and, true_or, or_true]) hcy)
      · exact Or.inr ⟨_, ExecuteIter_LDY_IM c Cycles memory hPC e hcy, hlt _, rfl, rfl,
          fun _ => rfl, fun _ _ _ => rfl, fun _ _ _ _ ho => by cases ho⟩
    · exact Or.inr ⟨_, ExecuteIter_TAX c Cycles memory hPC e, hlt _, rfl, rfl,
        fun _ => rfl, fun _ _ _ => rfl, fun _ _ _ _ ho => by cases ho⟩
    · exact Or.inr ⟨_, ExecuteIter_TAY c Cycles memory hPC e, hlt _, rfl, rfl,
        fun _ => rfl, fun _ _ _ => rfl, fun _ _ _ _ ho => by cases ho⟩
    · exact Or.inr ⟨_, ExecuteIter_TXA c Cycles memory hPC e, hlt _, rfl, rfl,
        fun _ => rfl, fun _ _ _ => rfl, fun _ _ _ _ ho => by cases ho⟩
    · exact Or.inr ⟨_, ExecuteIter_TYA c Cycles memory hPC e, hlt _, rfl, rfl,
        fun _ => rfl, fun _ _ _ => rfl, fun _ _ _ _ ho => by cases ho⟩
  · refine Or.inr ⟨_, ExecuteIter_unhandled c Cycles memory hPC hmem, hlt _, rfl, rfl,
      fun _ => rfl, fun _ _ _ => rfl, ?_⟩
    intro why c1 cy1 m1 ho
    cases ho
    exact ⟨rfl, rfl, by decide, by simp only [true_iff]; exact hmem⟩

end CPU

namespace CPU

theorem ExecuteIter_PC_fault (c : CPU) (Cycles : Nat) (memory : Mem) (h : ¬ c.PC < 65536) :
    c.ExecuteIter Cycles memory = none := by
  unfold ExecuteIter
  rw [FetchByte_ite, if_neg h]

/-- What a pass that does not index outside the array leaves alone. -/
theorem ExecuteIter_frame {c : CPU} {Cycles : Nat} {memory : Mem} {o : Outcome}
    (h : c.ExecuteIter Cycles memory = some o) :
    c.PC < 65536 ∧
    o.cpu.PC < 65536 ∧ o.cpu.D = c.D ∧ o.cpu.I = c.I ∧
      (memory.Data c.PC ≠ 0x20 → o.memory = memory) ∧
      (∀ a, a ≠ c.SP → a ≠ c.SP - 1 → o.memory.Data a = memory.Data a) ∧
      (∀ why c1 cy1 m1, o = .halt why c1 cy1 m1 →
        c1 = { c with PC := (c.PC + 1) % 65536 } ∧ m1 = memory ∧ why ≠ .loopEnd ∧
        (why = .unhandled ↔ memory.Data c.PC ∉
          [0xA9, 0xA5, 0xB5, 0x20, 0x60, 0x18, 0x38, 0xA2, 0xA0, 0xAA, 0xA8, 0x8A, 0x98])) := by
  by_cases hPC : c.PC < 65536
  · rcases ExecuteIter_cases c Cycles memory hPC with ⟨hn, _⟩ | ⟨o1, ho, hrest⟩
    · rw [hn] at h
      cases h
    · rw [ho] at h
      cases h
      exact ⟨hPC, hrest⟩
  · rw [ExecuteIter_PC_fault c Cycles memory hPC] at h
    cases h

end CPU

/-- C15: for every prior processor state and memory, `Reset` leaves `PC = 0xFFFC`,
`SP = 0x0100`, `A = X = Y = 0`, the seven flags 0, and each of the 65536 cells 0. -/
theorem C15_reset (c : CPU) (memory : Mem) :
    (c.Reset memory).1 =
      { PC := 0xFFFC, SP := 0x0100, A := 0, X := 0, Y := 0,
        C := 0, Z := 0, I := 0, D := 0, B := 0, V := 0, N := 0 } ∧
    ∀ i, i < 65536 → (c.Reset memory).2.Data i = 0 := by
  refine ⟨rfl, fun i hi => ?_⟩
  have hi2 : i < Mem.MAX_MEM := by
    show i < 1024 * 64
    omega
  show (if i < Mem.MAX_MEM then 0 else memory.Data i) = 0
  rw [if_pos hi2]

/-- C15 on a processor with `A = 0x80` and a memory holding `0xAA` at `0xFFFC`: the
accumulator and that cell are cleared. -/
theorem C15_reset_witness :
    (cpuA80.Reset taxMem).1.A = 0 ∧ (0xFFFC < 65536 ∧ (cpuA80.Reset taxMem).2.Data 0xFFFC = 0) :=
  ⟨congrArg CPU.A (C15_reset cpuA80 taxMem).1,
   by decide, (C15_reset cpuA80 taxMem).2 0xFFFC (by decide)⟩

namespace CPU

/-- The push succeeds exactly when its two indices are inside the array. -/
theorem PushWordToStack_isSome_iff (c : CPU) (Cycles : Nat) (memory : Mem) (Value : Nat) :
    (c.PushWordToStack Cycles memory Value).isSome = true ↔
      ∀ a ∈ c.PushWordToStack_indices, a < 65536 := by
  rw [PushWordToStack_ite]
  simp only [PushWordToStack_indices, List.mem_cons, List.mem_singleton, List.not_mem_nil,
    or_false, forall_eq_or_imp, forall_eq]
  by_cases h : 1 ≤ c.SP ∧ c.SP < 65536
  · rw [if_pos h]
    simp only [Option.isSome_some, true_iff]
    omega
  · rw [if_neg h]
    simp only [Option.isSome_none, Bool.false_eq_true, false_iff]
    omega

/-- The pop succeeds exactly when its two indices are inside the array. -/
theorem PopWordFromStack_isSome_iff (c : CPU) (Cycles : Nat) (memory : Mem) :
    (c.PopWordFromStack Cycles memory).isSome = true ↔
      ∀ a ∈ c.PopWordFromStack_indices, a < 65536 := by
  rw [PopWordFromStack_ite]
  simp only [PopWordFromStack_indices, List.mem_cons, List.mem_singleton, List.not_mem_nil,
    or_false, forall_eq_or_imp, forall_eq]
  by_cases h : c.SP + 2 < 65536
  · rw [if_pos h]
    simp only [Option.isSome_some, true_iff]
    omega
  · rw [if_neg h]
    simp only [Option.isSome_none, Bool.false_eq_true, false_iff]
    omega

end CPU

/-- C16 as stated fails. In scenario C (`Reset`, JSR `0x8000` at `0xFFFC`, RTS at
`0x8000`) the JSR is executed with `SP = 0x0100` and changes the cells `0x0100` (to
`0xFF`) and `0x00FF` (to `0xFE`), which lie in pages 1 and 0: the cells written do not
share a page. The RTS that follows reads both of them: it leaves `PC = 0xFFFF`, and with
cell `0x00FF` or cell `0x0100` cleared it leaves `PC = 0xFF01` or `PC = 0x00FF`. -/
theorem C16_counterexample :
    resetCPU.ExecuteIter 12 (scenarioCMem 0x8000) =
      some (.next { resetCPU with PC := 0x8000, SP := 0x00FE } 6 scenarioCPushedMem) ∧
    (scenarioCPushedMem.Data 0x0100 = 0xFF ∧ (scenarioCMem 0x8000).Data 0x0100 = 0) ∧
    (scenarioCPushedMem.Data 0x00FF = 0xFE ∧ (scenarioCMem 0x8000).Data 0x00FF = 0) ∧
    (¬ ∃ page, ∀ a, scenarioCPushedMem.Data a ≠ (scenarioCMem 0x8000).Data a →
      a / 256 = page) ∧
    CPU.ExecuteIter { resetCPU with PC := 0x8000, SP := 0x00FE } 6 scenarioCPushedMem =
      some (.next { resetCPU with PC := 0xFFFF } 1 scenarioCPushedMem) ∧
    CPU.ExecuteIter { resetCPU with PC := 0x8000, SP := 0x00FE } 6
        (scenarioCPushedMem.set 0x00FF 0) =
      some (.next { resetCPU with PC := 0xFF01 } 1 (scenarioCPushedMem.set 0x00FF 0)) ∧
    CPU.ExecuteIter { resetCPU with PC := 0x8000, SP := 0x00FE } 6
        (scenarioCPushedMem.set 0x0100 0) =
      some (.next { resetCPU with PC := 0x00FF } 1 (scenarioCPushedMem.set 0x0100 0)) := by
  refine ⟨?_, ⟨rfl, rfl⟩, ⟨rfl, rfl⟩, ?_, ?_, ?_, ?_⟩
  · exact CPU.step_JSR resetCPU 12 (scenarioCMem 0x8000) 0xFFFC 0x0100 0x00 0x80 rfl rfl
      (by decide) rfl rfl rfl (by decide) (by decide) (by decide) (by decide)
  · rintro ⟨page, hp⟩
    have a : 0x0100 / 256 = page := hp 0x0100 (by decide)
    have b : 0x00FF / 256 = page := hp 0x00FF (by decide)
    omega
  · exact CPU.step_RTS _ 6 _ 0x8000 0x00FE 0xFE 0xFF rfl rfl (by decide) rfl rfl rfl
      (by decide) (by decide) (by decide)
  · exact CPU.step_RTS _ 6 _ 0x8000 0x00FE 0x00 0xFF rfl rfl (by decide) rfl rfl rfl
      (by decide) (by decide) (by decide)
  · exact CPU.step_RTS _ 6 _ 0x8000 0x00FE 0xFE 0x00 rfl rfl (by decide) rfl rfl rfl
      (by decide) (by decide) (by decide)

/-- C16, amended: the stack is addressed by the 16-bit `SP`. `PushWordToStack` at stack
pointer `S` with `2 <= S <= 0xFFFF` stores the high byte of the value in cell `S` and the
low byte in cell `S - 1` and changes no other cell; the `PopWordFromStack` that follows
reads exactly these two cells: whatever memory it is given, the word it returns is built
from the cells `S - 1` and `S`. The two cells lie in one 256-byte page exactly when `S`
is not a multiple of 256. -/
theorem C16_stack_cells (c : CPU) (Cycles : Nat) (memory : Mem) (Value : Nat)
    (h2 : 2 ≤ c.SP) (hSP : c.SP ≤ 0xFFFF) :
    ∃ c1 cy1 m1, c.PushWordToStack Cycles memory Value = some (c1, cy1, m1) ∧
      m1.Data c.SP = Value / 256 % 256 ∧ m1.Data (c.SP - 1) = Value % 256 ∧
      (∀ a, a ≠ c.SP → a ≠ c.SP - 1 → m1.Data a = memory.Data a) ∧
      (∀ (cy2 : Nat) (m2 : Mem), ∃ c2 cy3, c1.PopWordFromStack cy2 m2 =
        some ((m2.Data (c.SP - 1) ||| (m2.Data c.SP <<< 8)) % 65536, c2, cy3)) ∧
      ((c.SP - 1) / 256 = c.SP / 256 ↔ c.SP % 256 ≠ 0) := by
  have e1 : (65534 + c.SP) % 65536 + 2 = c.SP := by omega
  have e2 : (65534 + c.SP) % 65536 + 1 = c.SP - 1 := by omega
  have hne : c.SP ≠ c.SP - 1 := by omega
  refine ⟨_, _, _, CPU.PushWordToStack_eq c Cycles memory Value (by omega) (by omega),
    ?_, ?_, ?_, ?_, by omega⟩
  · simp only [Mem.set, if_neg hne, if_true, shiftRight_8]
  · simp only [Mem.set, if_true, and_255]
    omega
  · intro a ha1 ha2
    simp only [Mem.set, if_neg ha1, if_neg ha2]
  · intro cy2 m2
    have hpop := CPU.PopWordFromStack_eq { c with SP := (65534 + c.SP) % 65536 } cy2 m2
      (by show (65534 + c.SP) % 65536 + 2 < 65536; omega)
    dsimp only at hpop
    rw [e1, e2] at hpop
    exact ⟨_, _, hpop⟩

/-- C16, amended, at `SP = 0x01FF`: the push writes the cells `0x01FF` and `0x01FE`, the
pop reads them back, and both lie in page 1. -/
theorem C16_stack_cells_witness :
    ∃ c1 cy1 m1, cpuSP1FF.PushWordToStack 6 resetMem 0x1234 = some (c1, cy1, m1) ∧
      m1.Data cpuSP1FF.SP = 0x1234 / 256 % 256 ∧ m1.Data (cpuSP1FF.SP - 1) = 0x1234 % 256 ∧
      (∀ a, a ≠ cpuSP1FF.SP → a ≠ cpuSP1FF.SP - 1 → m1.Data a = resetMem.Data a) ∧
      (∀ (cy2 : Nat) (m2 : Mem), ∃ c2 cy3, c1.PopWordFromStack cy2 m2 =
        some ((m2.Data (cpuSP1FF.SP - 1) ||| (m2.Data cpuSP1FF.SP <<< 8)) % 65536, c2, cy3)) ∧
      ((cpuSP1FF.SP - 1) / 256 = cpuSP1FF.SP / 256 ↔ cpuSP1FF.SP % 256 ≠ 0) :=
  C16_stack_cells cpuSP1FF 6 resetMem 0x1234 (by decide) (by decide)

namespace CPU

/-- The flags `D` and `I` after any number of passes. -/
theorem IterN_frame (n : Nat) : ∀ (c : CPU) (Cycles : Nat) (memory : Mem) (o : Outcome),
    c.IterN n Cycles memory = some o → o.cpu.D = c.D ∧ o.cpu.I = c.I := by
  induction n with
  | zero =>
    intro c Cycles memory o h
    have e : some (Outcome.next c Cycles memory) = some o := h
    cases e
    exact ⟨rfl, rfl⟩
  | succ n ih =>
    intro c Cycles memory o h
    unfold IterN at h
    cases hit : c.ExecuteIter Cycles memory with
    | none =>
      rw [hit] at h
      cases h
    | some o1 =>
      obtain ⟨-, -, hD, hI, -⟩ := ExecuteIter_frame hit
      rw [hit] at h
      cases o1 with
      | halt w c2 cy2 m2 =>
        cases h
        exact ⟨hD, hI⟩
      | next c2 cy2 m2 =>
        obtain ⟨hD2, hI2⟩ := ih c2 cy2 m2 o h
        exact ⟨hD2.trans hD, hI2.trans hI⟩

end CPU

/-- C17: no instruction touches Decimal or Interrupt-Disable. For every processor state,
memory and counter, after any number `n` of passes through the loop of `Execute` the
flags `D` and `I` have their values from the start; so in every state reached from the
processor left by `Reset`, whatever program the memory then holds, both are 0. -/
theorem C17_decimal_interrupt_unchanged (n : Nat) (c : CPU) (Cycles : Nat) (memory : Mem)
    (o : Outcome) (h : c.IterN n Cycles memory = some o) :
    (o.cpu.D = c.D ∧ o.cpu.I = c.I) ∧
    ∀ (c0 : CPU) (m0 : Mem), c = (c0.Reset m0).1 → o.cpu.D = 0 ∧ o.cpu.I = 0 := by
  obtain ⟨hD, hI⟩ := CPU.IterN_frame n c Cycles memory o h
  refine ⟨⟨hD, hI⟩, ?_⟩
  intro c0 m0 hc
  subst hc
  exact ⟨hD, hI⟩

/-- C17 on the two instructions of Test 2 of `RunTests`. -/
theorem C17_decimal_interrupt_unchanged_witness :
    resetCPU.IterN 2 3 (test2Mem zeroCPU zeroMem 0x37) =
      some (.next { resetCPU with PC := 0xFFFF, A := 0x37, X := 0x37 } 4294967295
        (test2Mem zeroCPU zeroMem 0x37)) ∧
    ((({ resetCPU with PC := 0xFFFF, A := 0x37, X := 0x37 } : CPU).D = resetCPU.D ∧
      ({ resetCPU with PC := 0xFFFF, A := 0x37, X := 0x37 } : CPU).I = resetCPU.I) ∧
    ∀ (c0 : CPU) (m0 : Mem), resetCPU = (c0.Reset m0).1 →
      ({ resetCPU with PC := 0xFFFF, A := 0x37, X := 0x37 } : CPU).D = 0 ∧
      ({ resetCPU with PC := 0xFFFF, A := 0x37, X := 0x37 } : CPU).I = 0) :=
  ⟨rfl, C17_decimal_interrupt_unchanged 2 resetCPU 3 (test2Mem zeroCPU zeroMem 0x37)
    (.next { resetCPU with PC := 0xFFFF, A := 0x37, X := 0x37 } 4294967295
      (test2Mem zeroCPU zeroMem 0x37)) rfl⟩

/-- C18: push then pop. For every 16-bit value `v`, memory, counter and stack pointer
`S` with `2 <= S <= 0xFFFF`, `PopWordFromStack` directly after `PushWordToStack(v)`
returns `v`, leaves the processor as it was before the push (`SP = S` again), leaves the
counter 4 lower (mod 2^32), and no cell other than `S` and `S - 1` has changed. -/
theorem C18_push_pop_roundtrip (c : CPU) (Cycles : Nat) (memory : Mem) (v : Nat)
    (hv : v < 65536) (h2 : 2 ≤ c.SP) (hSP : c.SP ≤ 0xFFFF) (hcy : Cycles < 4294967296) :
    ∃ c1 cy1 m1, c.PushWordToStack Cycles memory v = some (c1, cy1, m1) ∧
      ∃ c2 cy2, c1.PopWordFromStack cy1 m1 = some (v, c2, cy2) ∧
        c2.SP = c.SP ∧ c2 = c ∧
        (cy2 + 4) % 4294967296 = Cycles ∧ (4 ≤ Cycles → cy2 = Cycles - 4) ∧
        ∀ a, a ≠ c.SP → a ≠ c.SP - 1 → m1.Data a = memory.Data a := by
  have hpush := CPU.PushWordToStack_eq c Cycles memory v (by omega) (by omega)
  have e1 : (65534 + c.SP) % 65536 + 2 = c.SP := by omega
  have e2 : (65534 + c.SP) % 65536 + 1 = c.SP - 1 := by omega
  have e3 : (c.SP) % 65536 = c.SP := by omega
  have hne : c.SP ≠ c.SP - 1 := by omega
  have hpop := CPU.PopWordFromStack_eq { c with SP := (65534 + c.SP) % 65536 }
    ((4294967294 + Cycles) % 4294967296)
    ((memory.set c.SP (v >>> 8)).set (c.SP - 1) (v &&& 0xFF))
    (by show (65534 + c.SP) % 65536 + 2 < 65536; omega)
  have hlo : ((memory.set c.SP (v >>> 8)).set (c.SP - 1) (v &&& 0xFF)).Data (c.SP - 1)
      = v % 256 := by
    simp only [Mem.set, if_true, and_255]
    omega
  have hhi : ((memory.set c.SP (v >>> 8)).set (c.SP - 1) (v &&& 0xFF)).Data c.SP
      = v / 256 := by
    simp only [Mem.set, if_neg hne, if_true, shiftRight_8]
    omega
  have hval : (v % 256 ||| (v / 256) <<< 8) % 65536 = v := by
    rw [lor_shiftLeft_eq (v % 256) (v / 256) (by omega)]
    omega
  dsimp only at hpop
  rw [e1, e2, hlo, hhi, hval, e3] at hpop
  refine ⟨_, _, _, hpush, _, _, hpop, rfl, rfl, by omega, fun _ => by omega, ?_⟩
  intro a ha1 ha2
  simp only [Mem.set, if_neg ha1, if_neg ha2]

/-- C18 at `SP = 0x01FF` with the value `0x1234`. -/
theorem C18_push_pop_roundtrip_witness :
    ∃ c1 cy1 m1, cpuSP1FF.PushWordToStack 6 resetMem 0x1234 = some (c1, cy1, m1) ∧
      ∃ c2 cy2, c1.PopWordFromStack cy1 m1 = some (0x1234, c2, cy2) ∧
        c2.SP = cpuSP1FF.SP ∧ c2 = cpuSP1FF ∧
        (cy2 + 4) % 4294967296 = 6 ∧ (4 ≤ 6 → cy2 = 6 - 4) ∧
        ∀ a, a ≠ cpuSP1FF.SP → a ≠ cpuSP1FF.SP - 1 → m1.Data a = resetMem.Data a :=
  C18_push_pop_roundtrip cpuSP1FF 6 resetMem 0x1234 (by decide) (by decide) (by decide)
    (by decide)

/-- C19: memory is written only by JSR. One pass through the loop of `Execute` whose
opcode is not `0x20` leaves memory as it was; a pass whose opcode is `0x20` changes at
most the cells `SP` and `SP - 1`. -/
theorem C19_memory_written_only_by_jsr (c : CPU) (Cycles : Nat) (memory : Mem)
    (o : Outcome) (h : c.ExecuteIter Cycles memory = some o) :
    (memory.Data c.PC ≠ 0x20 → o.memory = memory) ∧
    (memory.Data c.PC = 0x20 →
      ∀ a, a ≠ c.SP → a ≠ c.SP - 1 → o.memory.Data a = memory.Data a) := by
  obtain ⟨-, -, -, -, hm, ha, -⟩ := CPU.ExecuteIter_frame h
  exact ⟨hm, fun _ => ha⟩

/-- C19 on a JSR executed in the state after `Reset`: only the cells `0x0100` and
`0x00FF` change. -/
theorem C19_memory_written_only_by_jsr_witness :
    resetCPU.ExecuteIter 6 jsrMem =
      some (.next { resetCPU with PC := (0 + 256 * 0) % 65536, SP := (65534 + 0x0100) % 65536 }
        ((4294967290 + 6) % 4294967296)
        ((jsrMem.set 0x0100 (((0xFFFC + 2) % 65536) / 256)).set (0x0100 - 1)
          (((0xFFFC + 2) % 65536) % 256))) ∧
    ((jsrMem.Data resetCPU.PC ≠ 0x20 →
      ((jsrMem.set 0x0100 (((0xFFFC + 2) % 65536) / 256)).set (0x0100 - 1)
          (((0xFFFC + 2) % 65536) % 256)) = jsrMem) ∧
    (jsrMem.Data resetCPU.PC = 0x20 →
      ∀ a, a ≠ resetCPU.SP → a ≠ resetCPU.SP - 1 →
        ((jsrMem.set 0x0100 (((0xFFFC + 2) % 65536) / 256)).set (0x0100 - 1)
          (((0xFFFC + 2) % 65536) % 256)).Data a = jsrMem.Data a)) :=
  ⟨CPU.step_JSR resetCPU 6 jsrMem 0xFFFC 0x0100 0 0 rfl rfl (by decide) rfl rfl rfl
      (by decide) (by decide) (by decide) (by decide),
   C19_memory_written_only_by_jsr resetCPU 6 jsrMem _
    (CPU.step_JSR resetCPU 6 jsrMem 0xFFFC 0x0100 0 0 rfl rfl (by decide) rfl rfl rfl
      (by decide) (by decide) (by decide) (by decide))⟩

/-- C20: with a 16-bit `PC` and `1 <= SP <= 0xFFFD`, one pass through the loop of
`Execute` indexes the array only inside `0..65535`, for every memory and counter: the
indices of push and pop are in range and the pass has a result. A push with `SP = 0`
and a pop with `SP >= 0xFFFE` index outside the array, because `SP - 1`, `SP + 1` and
`SP + 2` are computed without 16-bit wraparound. -/
theorem C20_accesses_in_range (c : CPU) (Cycles : Nat) (memory : Mem) (hPC : c.PC < 65536) :
    (1 ≤ c.SP → c.SP ≤ 0xFFFD →
      (∀ a ∈ c.PushWordToStack_indices ++ c.PopWordFromStack_indices, a < 65536) ∧
      ∃ o, c.ExecuteIter Cycles memory = some o) ∧
    (c.SP = 0 → (∃ a ∈ c.PushWordToStack_indices, 65536 ≤ a) ∧
      ∀ Value, c.PushWordToStack Cycles memory Value = none) ∧
    (0xFFFE ≤ c.SP → (∃ a ∈ c.PopWordFromStack_indices, 65536 ≤ a) ∧
      c.PopWordFromStack Cycles memory = none) := by
  refine ⟨fun h1 h2 => ⟨?_, ?_⟩, fun h0 => ⟨?_, fun Value => ?_⟩, fun hF => ⟨?_, ?_⟩⟩
  · simp only [CPU.PushWordToStack_indices, CPU.PopWordFromStack_indices, List.cons_append,
      List.nil_append, List.mem_cons, List.mem_singleton, List.not_mem_nil, or_false,
      forall_eq_or_imp, forall_eq]
    omega
  · rcases CPU.ExecuteIter_cases c Cycles memory hPC with ⟨-, ⟨-, hbad⟩ | ⟨-, hbad⟩⟩ | ⟨o, ho, -⟩
    · exact absurd ⟨h1, by omega⟩ hbad
    · exact absurd (by omega) hbad
    · exact ⟨o, ho⟩
  · refine ⟨(4294967295 + c.SP) % 4294967296, ?_, by omega⟩
    simp only [CPU.PushWordToStack_indices, List.mem_cons, List.mem_singleton, or_true,
      true_or]
  · rw [CPU.PushWordToStack_ite, if_neg (by omega)]
  · refine ⟨c.SP + 2, ?_, by omega⟩
    simp only [CPU.PopWordFromStack_indices, List.mem_cons, List.mem_singleton, or_true,
      true_or]
  · rw [CPU.PopWordFromStack_ite, if_neg (by omega)]

/-- C20 on the state after `Reset` at a JSR opcode (`SP = 0x0100`), on a push with
`SP = 0` and on a pop with `SP = 0xFFFE`. -/
theorem C20_accesses_in_range_witness :
    ((∀ a ∈ resetCPU.PushWordToStack_indices ++ resetCPU.PopWordFromStack_indices,
        a < 65536) ∧
      ∃ o, resetCPU.ExecuteIter 6 jsrMem = some o) ∧
    ((∃ a ∈ zeroCPU.PushWordToStack_indices, 65536 ≤ a) ∧
      ∀ Value, zeroCPU.PushWordToStack 6 zeroMem Value = none) ∧
    ((∃ a ∈ cpuSPFFFE.PopWordFromStack_indices, 65536 ≤ a) ∧
      cpuSPFFFE.PopWordFromStack 6 resetMem = none) :=
  ⟨(C20_accesses_in_range resetCPU 6 jsrMem (by decide)).1 (by decide) (by decide),
   (C20_accesses_in_range zeroCPU 6 zeroMem (by decide)).2.1 rfl,
   (C20_accesses_in_range cpuSPFFFE 6 resetMem (by decide)).2.2 (by decide)⟩

end Cpu6502
